import Mathlib

/-!
Verification development for the asteroid-prospector simulation engine core
(engine_core/src/abp_core.c together with engine_core/src/abp_rng.c).

The C engine is shallowly embedded:
* machine floats are modelled as exact rationals;
* the C math-library calls (expf, logf, sinf, cosf, sqrtf, log1pf) are
  abstracted into an explicit record of rational-valued functions
  (FloatOps) threaded through every definition, so the whole model stays
  computable while the structure of every formula mirrors the source;
* the 64-bit PCG32 generator state is a natural number reduced mod 2^64,
  and its 32-bit outputs are reduced mod 2^32;
* the fixed-capacity C arrays are lists accessed with getD and updated
  with set, always in bounds in practice;
* the scratch observation buffer obs_buffer inside AbpCoreState is not a
  field of the model state: abp_pack_obs is a pure function of the rest
  of the state and the C buffer only caches its result.

Definitions keep the names of the C functions and struct fields.
-/

set_option maxHeartbeats 1000000

/-- Abstract rational-valued stand-ins for the C math library functions
used by the engine.  Every engine definition is parameterized by such a
record; theorems that need analytic facts about the real functions take
them as explicit hypotheses on the record. -/
structure FloatOps where
  exp : ℚ → ℚ
  log : ℚ → ℚ
  sin : ℚ → ℚ
  cos : ℚ → ℚ
  sqrt : ℚ → ℚ
  log1p : ℚ → ℚ

/-- Engine constant ABP_PI_F, kept abstract-free as a rational literal of
the source constant 3.14159265358979323846f. -/
def abp_pi : ℚ := 3.14159265358979323846

/-- abp_clampf from abp_core.c. -/
def abp_clampf (value low high : ℚ) : ℚ :=
  if value < low then low
  else if high < value then high
  else value

/-- abp_sigmoid from abp_core.c: 1/(1+exp(-x)). -/
def abp_sigmoid (ops : FloatOps) (x : ℚ) : ℚ :=
  1 / (1 + ops.exp (-x))

/-- RNG state: 64-bit generator state plus odd increment (AbpRng). -/
structure AbpRng where
  state : ℕ
  inc : ℕ
deriving DecidableEq

/-- abp_pcg32_next from abp_rng.c.  The uint64 multiply-add wraps mod 2^64
and the uint32 output xorshift-rotate wraps mod 2^32. -/
def abp_pcg32_next (rng : AbpRng) : ℕ × AbpRng :=
  let oldstate := rng.state % 2 ^ 64
  let xorshifted := (((oldstate >>> 18) ^^^ oldstate) >>> 27) % 2 ^ 32
  let rot := (oldstate >>> 59) % 2 ^ 32
  let newstate := (oldstate * 6364136223846793005 + rng.inc) % 2 ^ 64
  let out := ((xorshifted >>> rot) ||| ((xorshifted <<< ((32 - rot % 32) % 32)) % 2 ^ 32)) % 2 ^ 32
  (out, { state := newstate, inc := rng.inc })

/-- abp_rng_seed from abp_rng.c. -/
def abp_rng_seed (seed stream : ℕ) : AbpRng :=
  let rng0 : AbpRng := { state := 0, inc := ((stream <<< 1) ||| 1) % 2 ^ 64 }
  let rng1 := (abp_pcg32_next rng0).2
  let rng2 : AbpRng := { rng1 with state := (rng1.state + seed) % 2 ^ 64 }
  (abp_pcg32_next rng2).2

/-- abp_rng_next_u32. -/
def abp_rng_next_u32 (rng : AbpRng) : ℕ × AbpRng := abp_pcg32_next rng

/-- abp_rng_next_f32: a uint32 draw divided by 2^32, giving a rational in
[0,1).  The float rounding of the C cast is idealized away. -/
def abp_rng_next_f32 (rng : AbpRng) : ℚ × AbpRng :=
  let (u, rng') := abp_rng_next_u32 rng
  ((u : ℚ) / 4294967296, rng')

/-- Engine configuration (AbpCoreConfig). -/
structure AbpCoreConfig where
  time_max : ℚ
  invalid_action_penalty : ℚ
deriving DecidableEq

/-- The full engine state (AbpCoreState), minus the obs_buffer scratch
field, which caches the pure function abp_pack_obs. -/
structure AbpCoreState where
  config : AbpCoreConfig
  rng : AbpRng
  seed : ℕ
  ticks_elapsed : ℕ
  time_remaining : ℚ
  needs_reset : Bool
  node_count : ℕ
  current_node : ℕ
  selected_asteroid : Int
  credits : ℚ
  fuel : ℚ
  hull : ℚ
  heat : ℚ
  tool_condition : ℚ
  alert : ℚ
  cargo : List ℚ
  repair_kits : ℕ
  stabilizers : ℕ
  decoys : ℕ
  escape_buff_ticks : ℕ
  stabilize_buff_ticks : List ℕ
  node_type : List ℕ
  node_hazard : List ℚ
  node_pirate : List ℚ
  neighbors : List (List Int)
  edge_travel_time : List (List ℕ)
  edge_fuel_cost : List (List ℚ)
  edge_threat_true : List (List ℚ)
  edge_threat_est : List (List ℚ)
  ast_valid : List (List Bool)
  true_comp : List (List (List ℚ))
  richness : List (List ℚ)
  stability_true : List (List ℚ)
  noise_profile : List (List ℚ)
  comp_est : List (List (List ℚ))
  stability_est : List (List ℚ)
  scan_conf : List (List ℚ)
  depletion : List (List ℚ)
  steps_to_station : List ℕ
  market_price : List ℚ
  market_prev_price : List ℚ
  price_phase : List ℚ
  price_period : List ℚ
  price_amp : List ℚ
  station_inventory : List ℚ
  recent_sales : List ℚ
  total_spend : ℚ
  overheat_ticks : ℕ
  pirate_encounters : ℕ
  value_lost_to_pirates : ℚ
  scan_count : ℕ
  mining_ticks : ℕ
  fuel_start : ℚ
  hull_start : ℚ
  tool_start : ℚ
  cargo_util_sum : ℚ
  cargo_util_count : ℚ

/-- Read a slot of a two-dimensional fixed array. -/
def get2 {α : Type} (m : List (List α)) (i j : ℕ) (d : α) : α :=
  (m.getD i []).getD j d

/-- Write a slot of a two-dimensional fixed array. -/
def set2 {α : Type} (m : List (List α)) (i j : ℕ) (v : α) : List (List α) :=
  m.set i ((m.getD i []).set j v)

/-- Read one commodity component of a per-asteroid vector. -/
def get3 (m : List (List (List ℚ))) (i j k : ℕ) : ℚ :=
  ((m.getD i []).getD j []).getD k 0

/-- Replace a whole per-asteroid 6-vector (the C code writes its 6
components in one loop). -/
def set3row (m : List (List (List ℚ))) (i j : ℕ) (v : List ℚ) :
    List (List (List ℚ)) :=
  m.set i ((m.getD i []).set j v)

/-- abp_rng_u32_range: draws from state.rng like the C helper that takes
the whole core state. -/
def abp_rng_u32_range (s : AbpCoreState) (low high_exclusive : ℕ) :
    ℕ × AbpCoreState :=
  if high_exclusive ≤ low then (low, s)
  else
    let span := high_exclusive - low
    let (u, rng') := abp_rng_next_u32 s.rng
    (low + u % span, { s with rng := rng' })

/-- Draw the next f32 into the core state. -/
def st_next_f32 (s : AbpCoreState) : ℚ × AbpCoreState :=
  let (v, rng') := abp_rng_next_f32 s.rng
  (v, { s with rng := rng' })

/-- abp_rng_uniform. -/
def abp_rng_uniform (s : AbpCoreState) (low high : ℚ) : ℚ × AbpCoreState :=
  let (u, s') := st_next_f32 s
  (low + (high - low) * u, s')

/-- abp_rng_exp_unit: -log(u) with u floored at 1e-8. -/
def abp_rng_exp_unit (ops : FloatOps) (s : AbpCoreState) : ℚ × AbpCoreState :=
  let (u, s') := st_next_f32 s
  let u' := if u < 1.0e-8 then (1.0e-8 : ℚ) else u
  (-(ops.log u'), s')

/-- abp_rng_normal: Box-Muller, cosine branch only. -/
def abp_rng_normal (ops : FloatOps) (s : AbpCoreState) (mean sigma : ℚ) :
    ℚ × AbpCoreState :=
  let (u1, s1) := st_next_f32 s
  let (u2, s2) := st_next_f32 s1
  let u1' := if u1 < 1.0e-8 then (1.0e-8 : ℚ) else u1
  let mag := ops.sqrt (-2 * ops.log u1')
  let z0 := mag * ops.cos (2 * abp_pi * u2)
  (mean + sigma * z0, s2)

/-- abp_rng_lognormal. -/
def abp_rng_lognormal (ops : FloatOps) (s : AbpCoreState) (mean sigma : ℚ) :
    ℚ × AbpCoreState :=
  let (z, s') := abp_rng_normal ops s mean sigma
  (ops.exp z, s')

/-- abp_rng_beta_3_2: ratio of sums of unit exponentials. -/
def abp_rng_beta_3_2 (ops : FloatOps) (s : AbpCoreState) : ℚ × AbpCoreState :=
  let (e1, s1) := abp_rng_exp_unit ops s
  let (e2, s2) := abp_rng_exp_unit ops s1
  let (e3, s3) := abp_rng_exp_unit ops s2
  let (e4, s4) := abp_rng_exp_unit ops s3
  let (e5, s5) := abp_rng_exp_unit ops s4
  let a := e1 + e2 + e3
  let b := e4 + e5
  let total := a + b
  (if total ≤ 0 then (1 / 2 : ℚ) else a / total, s5)

/-- Draw k sequential values with a stateful draw, first draw first. -/
def draw_list (draw : AbpCoreState → ℚ × AbpCoreState) :
    ℕ → AbpCoreState → List ℚ × AbpCoreState
  | 0, s => ([], s)
  | k + 1, s =>
    let (v, s1) := draw s
    let (vs, s2) := draw_list draw k s1
    (v :: vs, s2)

/-- abp_rng_dirichlet_ones: six unit exponentials, normalized; uniform
fallback when the sum is nonpositive. -/
def abp_rng_dirichlet_ones (ops : FloatOps) (s : AbpCoreState) :
    List ℚ × AbpCoreState :=
  let (es, s') := draw_list (abp_rng_exp_unit ops) 6 s
  let sum := es.sum
  (if sum ≤ 0 then List.replicate 6 ((1 : ℚ) / 6)
   else es.map (fun v => v / sum), s')

/-- abp_normalize_probs: floor entries at 1e-8, renormalize; uniform
fallback when the floored sum is nonpositive. -/
def abp_normalize_probs (l : List ℚ) : List ℚ :=
  let floored := l.map (fun v => if v < 1.0e-8 then (1.0e-8 : ℚ) else v)
  let sum := floored.sum
  if sum ≤ 0 then l.map (fun _ => 1 / (l.length : ℚ))
  else floored.map (fun v => v / sum)

/-- abp_normalize_comp_est_6_to_obs: identical arithmetic to
abp_normalize_probs on the six estimate components (the C variant only
differs by writing straight into the observation buffer). -/
def abp_normalize_comp_est_6_to_obs (l : List ℚ) : List ℚ :=
  abp_normalize_probs l

/-- abp_cargo_sum. -/
def abp_cargo_sum (s : AbpCoreState) : ℚ := s.cargo.sum

/-- abp_is_at_station. -/
def abp_is_at_station (s : AbpCoreState) : Bool :=
  s.node_type.getD s.current_node 1 = 0

/-- abp_selected_asteroid_valid. -/
def abp_selected_asteroid_valid (s : AbpCoreState) : Bool :=
  if s.selected_asteroid < 0 ∨ 16 ≤ s.selected_asteroid then false
  else if get2 s.ast_valid s.current_node s.selected_asteroid.toNat false = false then false
  else if 1 ≤ get2 s.depletion s.current_node s.selected_asteroid.toNat 0 then false
  else true

/-- abp_est_cargo_value: cargo valued at current market prices. -/
def abp_est_cargo_value (s : AbpCoreState) : ℚ :=
  ((List.range 6).map
    (fun c => s.cargo.getD c 0 * s.market_price.getD c 0)).sum

/-- abp_steps_to_station (the accessor used by the observation encoder). -/
def abp_steps_to_station (s : AbpCoreState) : ℕ :=
  if s.node_count ≤ s.current_node then 31
  else s.steps_to_station.getD s.current_node 31

/-- Ascending bounded loop: iterUp f lo n a applies f at indices
lo, lo+1, ..., lo+n-1 in order, mirroring the bounded C for-loops. -/
def iterUp {α : Type} (f : ℕ → α → α) : ℕ → ℕ → α → α
  | _, 0, a => a
  | lo, n + 1, a => iterUp f (lo + 1) n (f lo a)

/-- Working state of the breadth-first search in
abp_recompute_steps_to_station: visited flags, the fixed 32-slot queue,
the tail index and the distance array being built. -/
structure BfsSt where
  visited : List Bool
  queue : List ℕ
  tail : ℕ
  dist : List ℕ

/-- One neighbor-slot examination of the BFS inner loop. -/
def bfs_scan_slot (s : AbpCoreState) (cur cur_dist slot : ℕ) (b : BfsSt) : BfsSt :=
  let neighbor := get2 s.neighbors cur slot (-1)
  if neighbor < 0 ∨ (s.node_count : Int) ≤ neighbor then b
  else
    let n := neighbor.toNat
    if b.visited.getD n false then b
    else
      let visited' := b.visited.set n true
      let dist' := if cur_dist < 31 then b.dist.set n (cur_dist + 1) else b.dist.set n 31
      if b.tail < 32 then
        { visited := visited', queue := b.queue.set b.tail n, tail := b.tail + 1, dist := dist' }
      else
        { visited := visited', queue := b.queue, tail := b.tail, dist := dist' }

/-- The BFS while-loop.  The C loop pops head while head < tail; head
strictly increases and tail never exceeds 32, so 32 iterations are an
exact bound and the fuel argument never cuts the loop short. -/
def bfs_loop (s : AbpCoreState) : ℕ → ℕ → BfsSt → BfsSt
  | 0, _, b => b
  | fuel + 1, head, b =>
    if head < b.tail then
      let cur := b.queue.getD head 0
      let cur_dist := b.dist.getD cur 31
      let b' := iterUp (fun slot bb => bfs_scan_slot s cur cur_dist slot bb) 0 6 b
      bfs_loop s fuel (head + 1) b'
    else b

/-- abp_recompute_steps_to_station: BFS hop distances from node 0,
initialized (and saturated) at 32 - 1 = 31. -/
def abp_recompute_steps_to_station (s : AbpCoreState) : AbpCoreState :=
  let dist0 : List ℕ := List.replicate 32 31
  if s.node_count = 0 then { s with steps_to_station := dist0 }
  else
    let b0 : BfsSt :=
      { visited := (List.replicate 32 false).set 0 true,
        queue := (List.replicate 32 0).set 0 0,
        tail := 1,
        dist := dist0.set 0 0 }
    let b := bfs_loop s 32 0 b0
    { s with steps_to_station := b.dist }

/-- abp_edge_exists (checks the slots of u for v, as the source does). -/
def abp_edge_exists (s : AbpCoreState) (u v : ℕ) : Bool :=
  (List.range 6).any (fun slot => get2 s.neighbors u slot (-1) == (v : Int))

/-- abp_first_free_slot: first slot of node holding the -1 sentinel. -/
def abp_first_free_slot (s : AbpCoreState) (node : ℕ) : Option ℕ :=
  (List.range 6).find? (fun slot => decide (get2 s.neighbors node slot (-1) < 0))

/-- abp_add_edge: silently returns the state unchanged when an endpoint
is out of range, the edge already exists, or either endpoint has no free
neighbor slot; otherwise draws travel time, fuel cost and threat and
writes the symmetric edge records. -/
def abp_add_edge (ops : FloatOps) (s : AbpCoreState) (u v : ℕ) : AbpCoreState :=
  if s.node_count ≤ u ∨ s.node_count ≤ v then s
  else if abp_edge_exists s u v then s
  else
    match abp_first_free_slot s u, abp_first_free_slot s v with
    | some u_slot, some v_slot =>
      let (t_time, s1) := abp_rng_u32_range s 1 9
      let (fuel_cost, s2) := abp_rng_uniform s1 20 (160 * 0.7)
      let (noise, s3) := abp_rng_normal ops s2 0 0.05
      let threat0 := 0.5 * (s3.node_hazard.getD u 0 + s3.node_hazard.getD v 0) +
                     0.5 * (s3.node_pirate.getD u 0 + s3.node_pirate.getD v 0) + noise
      let threat := abp_clampf threat0 0 1
      let nb := set2 (set2 s3.neighbors u u_slot (v : Int)) v v_slot (u : Int)
      let tt := set2 (set2 s3.edge_travel_time u u_slot t_time) v v_slot t_time
      let fc := set2 (set2 s3.edge_fuel_cost u u_slot fuel_cost) v v_slot fuel_cost
      let et := set2 (set2 s3.edge_threat_true u u_slot threat) v v_slot threat
      let ee := set2 (set2 s3.edge_threat_est u u_slot 0.5) v v_slot 0.5
      { s3 with neighbors := nb, edge_travel_time := tt, edge_fuel_cost := fc,
                edge_threat_true := et, edge_threat_est := ee }
    | _, _ => s

/-- All-zero 32 x 16 rational array (the asteroid-field memsets). -/
def zero2q : List (List ℚ) := List.replicate 32 (List.replicate 16 0)

/-- All-false 32 x 16 validity array. -/
def zero2b : List (List Bool) := List.replicate 32 (List.replicate 16 false)

/-- All-zero 32 x 16 x 6 composition array. -/
def zero3q : List (List (List ℚ)) :=
  List.replicate 32 (List.replicate 16 (List.replicate 6 0))

/-- The body of the per-asteroid generation in abp_generate_asteroids:
validity flag, true composition (flat Dirichlet), richness, stability,
noise profile, then the uninformative estimate record. -/
def abp_generate_one_asteroid (ops : FloatOps) (node a_idx : ℕ)
    (s : AbpCoreState) : AbpCoreState :=
  let s0 := { s with ast_valid := set2 s.ast_valid node a_idx true }
  let (dir, s1) := abp_rng_dirichlet_ones ops s0
  let s2 := { s1 with true_comp := set3row s1.true_comp node a_idx dir }
  let (rich_raw, s3) := abp_rng_lognormal ops s2 (-0.2) 0.65
  let s4 := { s3 with richness := set2 s3.richness node a_idx (abp_clampf rich_raw 0.2 4) }
  let (stab, s5) := abp_rng_beta_3_2 ops s4
  let s6 := { s5 with stability_true := set2 s5.stability_true node a_idx stab }
  let (np, s7) := abp_rng_uniform s6 0.04 0.22
  let s8 := { s7 with noise_profile := set2 s7.noise_profile node a_idx np }
  let (dir_est, s9) := abp_rng_dirichlet_ones ops s8
  { s9 with comp_est := set3row s9.comp_est node a_idx dir_est,
            stability_est := set2 s9.stability_est node a_idx 0.5,
            scan_conf := set2 s9.scan_conf node a_idx 0.1,
            depletion := set2 s9.depletion node a_idx 0 }

/-- abp_generate_asteroids: clear all asteroid arrays, then draw 5 to 16
asteroids per non-station node. -/
def abp_generate_asteroids (ops : FloatOps) (s : AbpCoreState) : AbpCoreState :=
  let s0 := { s with ast_valid := zero2b, true_comp := zero3q, richness := zero2q,
                     stability_true := zero2q, noise_profile := zero2q,
                     comp_est := zero3q, stability_est := zero2q, scan_conf := zero2q,
                     depletion := zero2q }
  iterUp (fun node st =>
      if st.node_type.getD node 1 = 0 then st
      else
        let (n_ast, st1) := abp_rng_u32_range st 5 17
        iterUp (fun a_idx st2 => abp_generate_one_asteroid ops node a_idx st2) 0 n_ast st1)
    0 s0.node_count s0

/-- Commodity base prices k_price_base. -/
def k_price_base : List ℚ := [45, 55, 85, 145, 210, 120]

/-- Commodity price floors k_price_min. -/
def k_price_min : List ℚ := [12, 15, 20, 50, 80, 30]

/-- Commodity price caps k_price_max. -/
def k_price_max : List ℚ := [180, 200, 240, 320, 420, 300]

/-- abp_generate_market: per commodity draw inventory and sinusoid
parameters, and set both the current and previous price to the clamped
sinusoid value at phase. -/
def abp_generate_market (ops : FloatOps) (s : AbpCoreState) : AbpCoreState :=
  let s0 := { s with recent_sales := List.replicate 6 0 }
  iterUp (fun c st =>
      let (inv, st1) := abp_rng_uniform st 20 120
      let st2 := { st1 with station_inventory := st1.station_inventory.set c inv }
      let (phase, st3) := abp_rng_uniform st2 0 (2 * abp_pi)
      let (period, st4) := abp_rng_uniform st3 180 380
      let (amp_factor, st5) := abp_rng_uniform st4 0.10 0.30
      let amp := k_price_base.getD c 0 * amp_factor
      let cycle := amp * ops.sin phase
      let price := abp_clampf (k_price_base.getD c 0 + cycle)
        (k_price_min.getD c 0) (k_price_max.getD c 0)
      { st5 with price_phase := st5.price_phase.set c phase,
                 price_period := st5.price_period.set c period,
                 price_amp := st5.price_amp.set c amp,
                 market_price := st5.market_price.set c price,
                 market_prev_price := st5.market_prev_price.set c price })
    0 6 s0

/-- abp_generate_world: node count, node attributes, spanning-tree
attachment, extra random edges, BFS distances, asteroid fields, market. -/
def abp_generate_graph (ops : FloatOps) (s : AbpCoreState) : AbpCoreState :=
  let (nc, s1) := abp_rng_u32_range s 8 33
  let s2 := { s1 with node_count := nc, current_node := 0,
                      node_type := (List.replicate 32 1).set 0 0,
                      node_hazard := List.replicate 32 0,
                      node_pirate := List.replicate 32 0,
                      steps_to_station := List.replicate 32 31,
                      neighbors := List.replicate 32 (List.replicate 6 (-1 : Int)),
                      edge_travel_time := List.replicate 32 (List.replicate 6 1),
                      edge_fuel_cost := List.replicate 32 (List.replicate 6 0),
                      edge_threat_true := List.replicate 32 (List.replicate 6 0),
                      edge_threat_est := List.replicate 32 (List.replicate 6 0.5) }
  let s3 := iterUp (fun node st =>
      let (u, st1) := st_next_f32 st
      let ty : ℕ := if u < 0.25 then 2 else 1
      let (hz, st2) := abp_rng_uniform st1 0.05 0.35
      let (pr, st3) := abp_rng_uniform st2 0.05 0.30
      let hz' := if ty = 2 then hz + 0.25 else hz
      let pr' := if ty = 2 then pr + 0.12 else pr
      { st3 with node_type := st3.node_type.set node ty,
                 node_hazard := st3.node_hazard.set node hz',
                 node_pirate := st3.node_pirate.set node pr' })
    1 (nc - 1) s2
  let s4 := iterUp (fun node st =>
      let (parent, st1) := abp_rng_u32_range st 0 node
      abp_add_edge ops st1 node parent)
    1 (nc - 1) s3
  let s5 := iterUp (fun _ st =>
      let (u, st1) := abp_rng_u32_range st 0 st.node_count
      let (v, st2) := abp_rng_u32_range st1 0 st1.node_count
      if u = v then st2 else abp_add_edge ops st2 u v)
    0 nc s4
  abp_recompute_steps_to_station s5

/-- abp_generate_world: the graph phase, then asteroid fields, then the
market. -/
def abp_generate_world (ops : FloatOps) (s : AbpCoreState) : AbpCoreState :=
  abp_generate_market ops (abp_generate_asteroids ops (abp_generate_graph ops s))

/-- abp_passive_heat_dissipation: 2.5 heat per tick, floored at 0. -/
def abp_passive_heat_dissipation (s : AbpCoreState) (dt : ℕ) : AbpCoreState :=
  { s with heat := max 0 (s.heat - 2.5 * (dt : ℚ)) }

/-- abp_apply_hold: passive alert decay of 3 floored at 0, plus one tick
of passive heat dissipation. -/
def abp_apply_hold (s : AbpCoreState) : AbpCoreState :=
  abp_passive_heat_dissipation { s with alert := max 0 (s.alert - 3) } 1

/-- abp_apply_emergency_burn. -/
def abp_apply_emergency_burn (s : AbpCoreState) : AbpCoreState :=
  let s1 := { s with fuel := s.fuel - 18, alert := s.alert + 10 }
  if s1.escape_buff_ticks < 4 then { s1 with escape_buff_ticks := 4 } else s1

/-- abp_maybe_pirate_encounter: logistic encounter probability compounded
over dt, with decoy mitigation, uniform cargo loss, hull damage and the
cumulative pirate-loss accounting.  The float sentinel intensity < 0
selects the node pirate level, as in the source. -/
def abp_maybe_pirate_encounter (ops : FloatOps) (s : AbpCoreState) (dt : ℕ)
    (intensity : ℚ) : AbpCoreState :=
  if abp_is_at_station s then s
  else
    let pirate_intensity :=
      if intensity < 0 then s.node_pirate.getD s.current_node 0 else intensity
    let cargo_value_before := abp_est_cargo_value s
    let logit := -4 + 3 * pirate_intensity +
      2.2 * abp_clampf (s.alert / 100) 0 1 +
      0.8 * ops.log1p (cargo_value_before / 1000) -
      2.8 * (if 0 < s.escape_buff_ticks then (1 : ℚ) else 0)
    let base_prob := abp_sigmoid ops logit
    let p_encounter := 1 - (1 - base_prob) ^ (if dt = 0 then 1 else dt)
    let (u, s1) := st_next_f32 s
    if p_encounter ≤ u then s1
    else
      let s2 := { s1 with pirate_encounters := s1.pirate_encounters + 1 }
      let (lf0, s3) := abp_rng_uniform s2 0.08 0.20
      let (lf, s4) :=
        if 0 < s3.decoys then
          let (u2, s3a) := st_next_f32 s3
          if u2 < 0.6 then (lf0 * 0.3, { s3a with decoys := s3a.decoys - 1 })
          else (lf0, s3a)
        else (lf0, s3)
      let s5 := { s4 with cargo := s4.cargo.map (fun c => c * (1 - lf)) }
      let cargo_value_after := abp_est_cargo_value s5
      let s6 :=
        if cargo_value_after < cargo_value_before then
          { s5 with value_lost_to_pirates :=
              s5.value_lost_to_pirates + (cargo_value_before - cargo_value_after) }
        else s5
      let (hd, s7) := abp_rng_uniform s6 1 4
      { s7 with hull := s7.hull - hd, alert := s7.alert + 8 }

/-- abp_apply_edge_hazards_and_pirates. -/
def abp_apply_edge_hazards_and_pirates (ops : FloatOps) (s : AbpCoreState)
    (dt : ℕ) (edge_threat : ℚ) : AbpCoreState :=
  if dt = 0 then s
  else
    let (shock, s1) := abp_rng_uniform s 0.85 1.15
    let hazard_dmg := (dt : ℚ) * edge_threat * 0.7 * shock
    let s2 := { s1 with hull := s1.hull - hazard_dmg,
                        heat := s1.heat + (dt : ℚ) * edge_threat * 0.5,
                        alert := s1.alert + (dt : ℚ) * edge_threat * 0.8 }
    abp_maybe_pirate_encounter ops s2 dt edge_threat

/-- abp_apply_travel: returns the updated state, the tick duration and
the invalid flag of the travel attempt. -/
def abp_apply_travel (ops : FloatOps) (s : AbpCoreState) (slot : ℕ) :
    AbpCoreState × ℕ × Bool :=
  let neighbor := get2 s.neighbors s.current_node slot (-1)
  if neighbor < 0 then (s, 1, true)
  else
    let dt0 := get2 s.edge_travel_time s.current_node slot 1
    let dt := if dt0 = 0 then 1 else dt0
    let mass_factor := 1 + 0.5 * (abp_cargo_sum s / 200)
    let fuel_cost := get2 s.edge_fuel_cost s.current_node slot 0 * mass_factor
    let threat := get2 s.edge_threat_true s.current_node slot 0
    let s1 := { s with fuel := s.fuel - fuel_cost,
                       current_node := neighbor.toNat,
                       selected_asteroid := -1 }
    (abp_apply_edge_hazards_and_pirates ops s1 dt threat, dt, false)

/-- abp_update_asteroid_estimates: blend a renormalized noisy view of the
truth into the composition estimate, update the stability estimate, and
raise the scan confidence by the mode-specific gain. -/
def abp_update_asteroid_estimates (ops : FloatOps) (s : AbpCoreState)
    (asteroid : ℕ) (mode : ℕ) : AbpCoreState :=
  let node := s.current_node
  if get2 s.ast_valid node asteroid false = false then s
  else
    let blend : ℚ := if mode = 0 then 0.22 else if mode = 1 then 0.42 else 0.80
    let conf_gain : ℚ := if mode = 0 then 0.10 else if mode = 1 then 0.20 else 0.45
    let noise_mult : ℚ := if mode = 0 then 1.35 else if mode = 1 then 1.0 else 0.55
    let base_noise := get2 s.noise_profile node asteroid 0
    let conf := get2 s.scan_conf node asteroid 0
    let sigma := base_noise * (1 - conf + 0.1) * noise_mult
    let (noisy_raw, s1) := draw_list
      (fun st => abp_rng_normal ops st 0 sigma) 6 s
    let noisy_truth_raw := (List.range 6).map
      (fun c => get3 s.true_comp node asteroid c + noisy_raw.getD c 0)
    let noisy_truth := abp_normalize_probs noisy_truth_raw
    let mixed := (List.range 6).map
      (fun c => (1 - blend) * get3 s.comp_est node asteroid c +
                blend * noisy_truth.getD c 0)
    let mixed_norm := abp_normalize_probs mixed
    let s2 := { s1 with comp_est := set3row s1.comp_est node asteroid mixed_norm }
    let stable_truth := get2 s2.stability_true node asteroid 0
    let (sn, s3) := abp_rng_normal ops s2 0 sigma
    let stable_noisy := abp_clampf (stable_truth + sn) 0 1
    let stable_est := (1 - blend) * get2 s3.stability_est node asteroid 0 +
                      blend * stable_noisy
    let se := set2 s3.stability_est node asteroid (abp_clampf stable_est 0 1)
    let s4 := { s3 with stability_est := se }
    let sc := set2 s4.scan_conf node asteroid
      (abp_clampf (get2 s4.scan_conf node asteroid 0 + conf_gain) 0 1)
    { s4 with scan_conf := sc }

/-- abp_update_cluster_priors_with_noise: low-blend update of every valid
asteroid at the current node. -/
def abp_update_cluster_priors_with_noise (ops : FloatOps) (s : AbpCoreState) :
    AbpCoreState :=
  iterUp (fun a_idx st =>
      if get2 st.ast_valid st.current_node a_idx false then
        abp_update_asteroid_estimates ops st a_idx 0
      else st)
    0 16 s

/-- abp_update_neighbor_threat_estimates. -/
def abp_update_neighbor_threat_estimates (ops : FloatOps) (s : AbpCoreState) :
    AbpCoreState :=
  iterUp (fun slot st =>
      let neighbor := get2 st.neighbors st.current_node slot (-1)
      if neighbor < 0 then st
      else
        let truth := get2 st.edge_threat_true st.current_node slot 0
        let est := get2 st.edge_threat_est st.current_node slot 0
        let (n, st1) := abp_rng_normal ops st 0 0.08
        let noisy := abp_clampf (truth + n) 0 1
        let ee := set2 st1.edge_threat_est st1.current_node slot (0.25 * est + 0.75 * noisy)
        { st1 with edge_threat_est := ee })
    0 6 s

/-- abp_select_asteroid: returns success and the updated state. -/
def abp_select_asteroid (s : AbpCoreState) (asteroid : Int) :
    Bool × AbpCoreState :=
  if asteroid < 0 ∨ 16 ≤ asteroid then (false, s)
  else if get2 s.ast_valid s.current_node asteroid.toNat false = false then (false, s)
  else if 1 ≤ get2 s.depletion s.current_node asteroid.toNat 0 then (false, s)
  else (true, { s with selected_asteroid := asteroid })

/-- abp_mine_selected: extraction scaled by richness, depletion, tool and
heat efficiency, mode multiplier and log-normal noise; capacity capping,
depletion advance, and the stochastic fracture event. -/
def abp_mine_selected (ops : FloatOps) (s : AbpCoreState) (action : ℕ) :
    AbpCoreState :=
  let node := s.current_node
  let a_idx := s.selected_asteroid.toNat
  let mode_mult : ℚ := if action = 28 then 0.80 else if action = 29 then 1.15 else 1.55
  let heat_gain : ℚ := if action = 28 then 2.0 else if action = 29 then 4.0 else 7.0
  let wear_gain : ℚ := if action = 28 then 0.8 else if action = 29 then 1.6 else 2.8
  let alert_gain : ℚ := if action = 28 then 1.2 else if action = 29 then 2.2 else 4.0
  let sigma : ℚ := if action = 28 then 0.05 else if action = 29 then 0.10 else 0.16
  let fracture_bias : ℚ := if action = 28 then -0.7 else if action = 29 then 0.0 else 0.8
  let richness := get2 s.richness node a_idx 0
  let depletion := get2 s.depletion node a_idx 0
  let base := richness * max 0 (1 - depletion)
  let tool_frac := abp_clampf (s.tool_condition / 100) 0 1
  let heat_frac := abp_clampf (s.heat / 100) 0 2
  let eff_tool := 0.4 + 0.6 * tool_frac
  let eff_heat : ℚ := if heat_frac ≤ 0.7 then 1 else max 0.1 (1 - (heat_frac - 0.7) / 0.3)
  let (z, s1) := abp_rng_normal ops s 0 sigma
  let noise := ops.exp z
  let extracted0 := (List.range 6).map
    (fun c => base * eff_tool * eff_heat * mode_mult * noise * get3 s.true_comp node a_idx c)
  let total_extracted0 := extracted0.sum
  let available_capacity := max 0 (200 - abp_cargo_sum s1)
  let (extracted, total_extracted) :=
    if available_capacity < total_extracted0 ∧ 0 < total_extracted0 then
      (extracted0.map (fun e => e * (available_capacity / total_extracted0)),
       available_capacity)
    else (extracted0, total_extracted0)
  let cargo2 := (List.range 6).map (fun c => s1.cargo.getD c 0 + extracted.getD c 0)
  let s2 := { s1 with cargo := cargo2 }
  let s3 := { s2 with heat := s2.heat + heat_gain,
                      tool_condition := s2.tool_condition - wear_gain,
                      alert := s2.alert + alert_gain }
  let dep4 := set2 s3.depletion node a_idx
    (abp_clampf (get2 s3.depletion node a_idx 0 + 0.01 * total_extracted) 0 1)
  let s4 := { s3 with depletion := dep4 }
  let s5 := { s4 with mining_ticks := s4.mining_ticks + 1 }
  let logit := -3.1 + fracture_bias +
    2.5 * (1 - get2 s5.stability_true node a_idx 0) +
    2.2 * max 0 (heat_frac - 0.7) + 1.5 * (1 - tool_frac) -
    (if 0 < s5.stabilize_buff_ticks.getD a_idx 0 then (1.1 : ℚ) else 0)
  let (u, s6) := st_next_f32 s5
  if u < abp_sigmoid ops logit then
    let (severity, s7) := abp_rng_uniform s6 0.5 1.0
    let hz7 := s7.node_hazard.set node (abp_clampf (s7.node_hazard.getD node 0 + 0.1) 0 1)
    { s7 with hull := s7.hull - 12 * severity,
              depletion := set2 s7.depletion node a_idx 1,
              node_hazard := hz7 }
  else s6

/-- abp_refine_some_cargo: convert 15 percent of the low-value holdings
(commodities 0 and 1) into commodity 4 at a 0.65 yield. -/
def abp_refine_some_cargo (s : AbpCoreState) : AbpCoreState :=
  let low_value := s.cargo.getD 0 0 + s.cargo.getD 1 0
  if low_value ≤ 0 then s
  else
    let refine_input := 0.15 * low_value
    let total_low := s.cargo.getD 0 0 + s.cargo.getD 1 0
    if total_low ≤ 0 then s
    else
      let take_ratio := min 1 (refine_input / total_low)
      let cargo1 := (s.cargo.set 0 (s.cargo.getD 0 0 * (1 - take_ratio))).set 1
        (s.cargo.getD 1 0 * (1 - take_ratio))
      let output := 0.65 * refine_input
      { s with cargo := cargo1.set 4 (cargo1.getD 4 0 + output) }

/-- abp_slippage on the model rationals, with the square root supplied by
the math-library record. -/
def abp_slippage (ops : FloatOps) (qty inventory : ℚ) : ℚ :=
  if qty ≤ 0 then 0
  else
    let r := qty / max 1 (inventory + qty)
    abp_clampf (0.25 * r + 0.2 * ops.sqrt r) 0 0.70

/-- abp_sell_action: sell 25, 50 or 100 percent of the held quantity of
the decoded commodity at the slippage-discounted market price. -/
def abp_sell_action (ops : FloatOps) (s : AbpCoreState) (action : ℕ) :
    AbpCoreState :=
  let c_idx := (action - 43) / 3
  let bucket := (action - 43) % 3
  let frac : ℚ := if bucket = 0 then 0.25 else if bucket = 1 then 0.50 else 1.0
  let qty := s.cargo.getD c_idx 0 * frac
  if qty ≤ 0 then s
  else
    let slippage := abp_slippage ops qty (s.station_inventory.getD c_idx 0)
    let effective_price := s.market_price.getD c_idx 0 * (1 - slippage)
    { s with credits := s.credits + qty * effective_price,
             cargo := s.cargo.set c_idx (max 0 (s.cargo.getD c_idx 0 - qty)),
             station_inventory := s.station_inventory.set c_idx
               (s.station_inventory.getD c_idx 0 + qty),
             recent_sales := s.recent_sales.set c_idx
               (s.recent_sales.getD c_idx 0 + qty) }

/-- abp_buy_fuel: fails only when credits are below cost; fuel is clamped
at the 1000 cap on success. -/
def abp_buy_fuel (s : AbpCoreState) (qty cost : ℚ) : Bool × AbpCoreState :=
  if s.credits < cost then (false, s)
  else (true, { s with credits := s.credits - cost,
                       total_spend := s.total_spend + cost,
                       fuel := min 1000 (s.fuel + qty) })

/-- abp_buy_supply: repair kit, stabilizer or decoy, each failing when
credits are below cost or the count is at its cap of 12. -/
def abp_buy_supply (s : AbpCoreState) (kind : ℕ) : Bool × AbpCoreState :=
  if kind = 0 then
    if s.credits < 150 ∨ 12 ≤ s.repair_kits then (false, s)
    else (true, { s with credits := s.credits - 150,
                         total_spend := s.total_spend + 150,
                         repair_kits := s.repair_kits + 1 })
  else if kind = 1 then
    if s.credits < 175 ∨ 12 ≤ s.stabilizers then (false, s)
    else (true, { s with credits := s.credits - 175,
                         total_spend := s.total_spend + 175,
                         stabilizers := s.stabilizers + 1 })
  else
    if s.credits < 110 ∨ 12 ≤ s.decoys then (false, s)
    else (true, { s with credits := s.credits - 110,
                         total_spend := s.total_spend + 110,
                         decoys := s.decoys + 1 })

/-- abp_purchase_station_item: dispatch of the purchase actions 61-66. -/
def abp_purchase_station_item (s : AbpCoreState) (action : ℕ) :
    Bool × AbpCoreState :=
  if action = 61 then abp_buy_fuel s 120 60
  else if action = 62 then abp_buy_fuel s 260 120
  else if action = 63 then abp_buy_fuel s 480 210
  else if action = 64 then abp_buy_supply s 0
  else if action = 65 then abp_buy_supply s 1
  else if action = 66 then abp_buy_supply s 2
  else (false, s)

/-- abp_apply_node_hazards: ambient damage, heat and alert at a hazardous
node, skipped entirely when the node hazard level is nonpositive. -/
def abp_apply_node_hazards (s : AbpCoreState) (dt : ℕ) : AbpCoreState :=
  let hazard := s.node_hazard.getD s.current_node 0
  if hazard ≤ 0 then s
  else
    let (shock, s1) := abp_rng_uniform s 0.8 1.2
    { s1 with hull := s1.hull - (dt : ℚ) * hazard * 0.7 * shock,
              heat := s1.heat + (dt : ℚ) * hazard * 0.5,
              alert := s1.alert + (dt : ℚ) * hazard * 0.8 }

/-- abp_update_market: sinusoid plus pressure terms plus Gaussian noise
scaled by sqrt(dt), clamped to the commodity band; exponential decay of
recent sales and slow mean reversion of station inventory. -/
def abp_update_market (ops : FloatOps) (s : AbpCoreState) (dt : ℕ) : AbpCoreState :=
  let t : ℚ := ((s.ticks_elapsed + dt : ℕ) : ℚ)
  let s0 := { s with market_prev_price := s.market_price }
  let s1 := iterUp (fun c st =>
      let cycles := st.price_amp.getD c 0 *
        ops.sin (2 * abp_pi * (t / st.price_period.getD c 0) + st.price_phase.getD c 0)
      let inv_pressure := 0.04 * st.station_inventory.getD c 0
      let sale_pressure := 0.05 * st.recent_sales.getD c 0
      let noise_std := 0.03 * k_price_base.getD c 0 *
        ops.sqrt (((if 0 < dt then dt else 1 : ℕ)) : ℚ)
      let (noise, st1) := abp_rng_normal ops st 0 noise_std
      let new_price := k_price_base.getD c 0 + cycles - inv_pressure - sale_pressure + noise
      let mp := st1.market_price.set c
        (abp_clampf new_price (k_price_min.getD c 0) (k_price_max.getD c 0))
      { st1 with market_price := mp })
    0 6 s0
  let decay := ops.exp (-(dt : ℚ) / 14)
  iterUp (fun c st =>
      let rs := st.recent_sales.set c (st.recent_sales.getD c 0 * decay)
      let si := st.station_inventory.set c (max (st.station_inventory.getD c 0 * 0.998) 0)
      { st with recent_sales := rs, station_inventory := si })
    0 6 s1

/-- abp_clamp_state: clamp every bounded scalar into its domain and
rescale cargo proportionally when the clamped total exceeds capacity. -/
def abp_clamp_state (s : AbpCoreState) : AbpCoreState :=
  let cargo1 := (List.range 6).map (fun c => abp_clampf (s.cargo.getD c 0) 0 200)
  let total_cargo := cargo1.sum
  let cargo2 :=
    if 200 < total_cargo ∧ 0 < total_cargo then
      cargo1.map (fun c => c * (200 / total_cargo))
    else cargo1
  { s with fuel := abp_clampf s.fuel 0 1000,
           hull := abp_clampf s.hull 0 100,
           heat := abp_clampf s.heat 0 100,
           tool_condition := abp_clampf s.tool_condition 0 100,
           alert := abp_clampf s.alert 0 100,
           time_remaining := abp_clampf s.time_remaining 0 s.config.time_max,
           cargo := cargo2 }

/-- abp_track_cargo_utilization. -/
def abp_track_cargo_utilization (s : AbpCoreState) (dt : ℕ) : AbpCoreState :=
  let frac := abp_clampf (abp_cargo_sum s / 200) 0 1
  { s with cargo_util_sum := s.cargo_util_sum + frac * (dt : ℚ),
           cargo_util_count := s.cargo_util_count + (dt : ℚ) }

/-- abp_apply_global_dynamics: the shared per-tick resolution, in source
order: time decrement, passive heat dissipation, buff countdowns, heat
overflow, off-station hazards and pirates, market update, clamping,
utilization tracking. -/
def abp_apply_global_dynamics (ops : FloatOps) (s : AbpCoreState) (dt : ℕ) :
    AbpCoreState :=
  let s1 := { s with time_remaining := s.time_remaining - (dt : ℚ) }
  let s2 := abp_passive_heat_dissipation s1 dt
  let s3 :=
    if 0 < s2.escape_buff_ticks then
      { s2 with escape_buff_ticks :=
          if dt < s2.escape_buff_ticks then s2.escape_buff_ticks - dt else 0 }
    else s2
  let sbt := s3.stabilize_buff_ticks.map
    (fun b => if 0 < b then (if dt < b then b - dt else 0) else b)
  let s4 := { s3 with stabilize_buff_ticks := sbt }
  let s5 :=
    if 100 < s4.heat then
      { s4 with hull := s4.hull - 1.25 * (s4.heat - 100),
                heat := 100,
                overheat_ticks := s4.overheat_ticks + dt }
    else s4
  let s6 :=
    if abp_is_at_station s5 then s5
    else abp_maybe_pirate_encounter ops (abp_apply_node_hazards s5 dt) dt (-1)
  let s7 := abp_update_market ops s6 dt
  let s8 := abp_clamp_state s7
  abp_track_cargo_utilization s8 dt

/-- Pre-tick scalar snapshot (AbpStepSnapshot). -/
structure AbpStepSnapshot where
  credits_before : ℚ
  fuel_before : ℚ
  hull_before : ℚ
  heat_before : ℚ
  tool_before : ℚ
  cargo_value_before : ℚ
  value_lost_to_pirates_before : ℚ

/-- Take the pre-tick snapshot exactly as abp_core_step does. -/
def abp_make_snapshot (s : AbpCoreState) : AbpStepSnapshot :=
  { credits_before := s.credits, fuel_before := s.fuel, hull_before := s.hull,
    heat_before := s.heat, tool_before := s.tool_condition,
    cargo_value_before := abp_est_cargo_value s,
    value_lost_to_pirates_before := s.value_lost_to_pirates }

/-- abp_compute_reward: the weighted sum of per-tick terms. -/
def abp_compute_reward (s : AbpCoreState) (snap : AbpStepSnapshot)
    (cargo_value_after : ℚ) (action dt : ℕ)
    (invalid destroyed stranded done : Bool) : ℚ :=
  let r_sell := (s.credits - snap.credits_before) / 1000
  let r_extract := 0.02 * (max 0 (cargo_value_after - snap.cargo_value_before) / 1000)
  let r_fuel := -(0.10) * max 0 (snap.fuel_before - s.fuel) / 100
  let r_time := -(0.001) * (dt : ℚ)
  let r_wear := -(0.05) * max 0 (snap.tool_before - s.tool_condition) / 10
  let r_damage := -(1.00) * max 0 (snap.hull_before - s.hull) / 10
  let heat_term := max 0 (s.heat - 0.70 * 100) / 100
  let r_heat := -(0.20) * heat_term * heat_term
  let r_scan : ℚ := if action = 8 ∨ action = 9 ∨ action = 10 then -(0.005) else 0
  let r_invalid : ℚ := if invalid then -s.config.invalid_action_penalty else 0
  let r_pirate := -(1.00) *
    (max 0 (s.value_lost_to_pirates - snap.value_lost_to_pirates_before) / 1000)
  let r_term0 : ℚ := if stranded then -(50 : ℚ) else 0
  let r_term1 := r_term0 + (if destroyed then -(100 : ℚ) else 0)
  let r_terminal := r_term1 +
    (if done && !destroyed && !stranded then 0.002 * (s.credits / 1000) else 0)
  r_sell + r_extract + r_fuel + r_time + r_wear + r_heat + r_damage + r_scan +
    r_invalid + r_pirate + r_terminal

/-- The 13-float info metrics block plus the trailing time_remaining
field of AbpCoreStepResult. -/
structure AbpMetrics where
  credits : ℚ
  net_profit : ℚ
  profit_per_tick : ℚ
  survival : ℚ
  overheat_ticks : ℚ
  pirate_encounters : ℚ
  value_lost_to_pirates : ℚ
  fuel_used : ℚ
  hull_damage : ℚ
  tool_wear : ℚ
  scan_count : ℚ
  mining_ticks : ℚ
  cargo_utilization_avg : ℚ
  time_remaining : ℚ

/-- abp_fill_step_metrics. -/
def abp_fill_step_metrics (s : AbpCoreState) (destroyed stranded : Bool) :
    AbpMetrics :=
  let net_profit := s.credits - s.total_spend
  let denom : ℕ := if 0 < s.ticks_elapsed then s.ticks_elapsed else 1
  let profit_per_tick := net_profit / (denom : ℚ)
  let cargo_util_avg : ℚ :=
    if 0 < s.cargo_util_count then s.cargo_util_sum / s.cargo_util_count else 0
  { credits := s.credits, net_profit := net_profit,
    profit_per_tick := profit_per_tick,
    survival := if destroyed || stranded then 0 else 1,
    overheat_ticks := (s.overheat_ticks : ℚ),
    pirate_encounters := (s.pirate_encounters : ℚ),
    value_lost_to_pirates := s.value_lost_to_pirates,
    fuel_used := max 0 (s.fuel_start - s.fuel),
    hull_damage := max 0 (s.hull_start - s.hull),
    tool_wear := max 0 (s.tool_start - s.tool_condition),
    scan_count := (s.scan_count : ℚ),
    mining_ticks := (s.mining_ticks : ℚ),
    cargo_utilization_avg := abp_clampf cargo_util_avg 0 1,
    time_remaining := s.time_remaining }

/-- Write a run of consecutive observation entries. -/
def set_range : List ℚ → ℕ → List ℚ → List ℚ
  | l, _, [] => l
  | l, i, v :: vs => set_range (l.set i v) (i + 1) vs

/-- abp_pack_obs: the fixed-layout 260-entry observation vector, written
field by field in source order onto a zeroed buffer. -/
def abp_pack_obs (ops : FloatOps) (s : AbpCoreState) : List ℚ :=
  let cargo_total := abp_cargo_sum s
  let o0 := List.replicate 260 (0 : ℚ)
  let o1 := ((((((o0.set 0 (abp_clampf (s.fuel / 1000) 0 1)).set 1
    (abp_clampf (s.hull / 100) 0 1)).set 2
    (abp_clampf (s.heat / 100) 0 1)).set 3
    (abp_clampf (s.tool_condition / 100) 0 1)).set 4
    (abp_clampf (cargo_total / 200) 0 1)).set 5
    (abp_clampf (s.alert / 100) 0 1)).set 6
    (abp_clampf (s.time_remaining / s.config.time_max) 0 1)
  let credits_norm := ops.log1p (max 0 s.credits) / ops.log1p 10000000
  let o2 := o1.set 7 (abp_clampf credits_norm 0 1)
  let o3 := iterUp (fun c oo =>
      oo.set (8 + c) (abp_clampf (s.cargo.getD c 0 / 200) 0 1)) 0 6 o2
  let o4 := ((o3.set 14 (abp_clampf ((s.repair_kits : ℚ) / 12) 0 1)).set 15
    (abp_clampf ((s.stabilizers : ℚ) / 12) 0 1)).set 16
    (abp_clampf ((s.decoys : ℚ) / 12) 0 1)
  let o5 := (o4.set 17 (if abp_is_at_station s then (1 : ℚ) else 0)).set 18
    (if abp_selected_asteroid_valid s then (1 : ℚ) else 0)
  let node_type := s.node_type.getD s.current_node 1
  let o6 := ((o5.set 19 0).set 20 0).set 21 0
  let o7 := if node_type < 3 then o6.set (19 + node_type) 1 else o6
  let o8 := (o7.set 22 (abp_clampf ((s.current_node : ℚ) * (1 / 31)) 0 1)).set 23
    (abp_clampf ((abp_steps_to_station s : ℚ) * (1 / 31)) 0 1)
  let o9 := iterUp (fun slot oo =>
      let base := 24 + 7 * slot
      let neighbor := get2 s.neighbors s.current_node slot (-1)
      if neighbor < 0 then oo
      else
        let oo1 := oo.set base 1
        let neigh_type := s.node_type.getD neighbor.toNat 1
        let oo2 := if neigh_type < 3 then oo1.set (base + 1 + neigh_type) 1 else oo1
        ((oo2.set (base + 4)
          (abp_clampf (((get2 s.edge_travel_time s.current_node slot 1 : ℕ) : ℚ) * (1 / 8)) 0 1)).set
          (base + 5)
          (abp_clampf (get2 s.edge_fuel_cost s.current_node slot 0 * (1 / 160)) 0 1)).set
          (base + 6)
          (abp_clampf (get2 s.edge_threat_est s.current_node slot 0) 0 1))
    0 6 o8
  let o10 := iterUp (fun a_idx oo =>
      let base := 68 + 11 * a_idx
      if get2 s.ast_valid s.current_node a_idx false = false then oo
      else
        let oo1 := oo.set base 1
        let est := (List.range 6).map (fun c => get3 s.comp_est s.current_node a_idx c)
        let oo2 := set_range oo1 (base + 1) (abp_normalize_comp_est_6_to_obs est)
        (((oo2.set (base + 7)
          (abp_clampf (get2 s.stability_est s.current_node a_idx 0) 0 1)).set (base + 8)
          (abp_clampf (get2 s.depletion s.current_node a_idx 0) 0 1)).set (base + 9)
          (abp_clampf (get2 s.scan_conf s.current_node a_idx 0) 0 1)).set (base + 10)
          (if (a_idx : Int) = s.selected_asteroid then (1 : ℚ) else 0))
    0 16 o9
  let o11 := iterUp (fun c oo =>
      let price_norm : ℚ :=
        if 0 < k_price_base.getD c 0 then
          s.market_price.getD c 0 * (1 / k_price_base.getD c 0)
        else 0
      let d_price := (s.market_price.getD c 0 - s.market_prev_price.getD c 0) * (1 / 100)
      (oo.set (244 + c) (abp_clampf price_norm 0 1)).set (250 + c)
        (abp_clampf d_price (-1) 1))
    0 6 o10
  (((o11.set 256 (abp_clampf (s.station_inventory.getD 0 0 * (1 / 500)) 0 1)).set 257
    (abp_clampf (s.station_inventory.getD 2 0 * (1 / 500)) 0 1)).set 258
    (abp_clampf (s.station_inventory.getD 3 0 * (1 / 500)) 0 1)).set 259
    (abp_clampf (s.station_inventory.getD 4 0 * (1 / 500)) 0 1)

/-- abp_core_default_config. -/
def abp_core_default_config : AbpCoreConfig :=
  { time_max := 20000, invalid_action_penalty := 0.01 }

/-- The nonpositive-value fallbacks applied to the configuration by
abp_core_init. -/
def abp_config_fallback (config : AbpCoreConfig) : AbpCoreConfig :=
  let c1 := if config.time_max ≤ 0 then { config with time_max := 20000 } else config
  if c1.invalid_action_penalty ≤ 0 then { c1 with invalid_action_penalty := 0.01 } else c1

/-- abp_core_init: zero the state, install the (fallback-corrected)
configuration, set the start resources, seed the RNG on stream 54 and
generate the world. -/
def abp_core_init (ops : FloatOps) (config : AbpCoreConfig) (seed : ℕ) :
    AbpCoreState :=
  let cfg := abp_config_fallback config
  let s0 : AbpCoreState :=
    { config := cfg, rng := abp_rng_seed seed 54, seed := seed,
      ticks_elapsed := 0, time_remaining := cfg.time_max, needs_reset := false,
      node_count := 0, current_node := 0, selected_asteroid := -1,
      credits := 0, fuel := 1000, hull := 100, heat := 0,
      tool_condition := 100, alert := 0, cargo := List.replicate 6 0,
      repair_kits := 3, stabilizers := 2, decoys := 1, escape_buff_ticks := 0,
      stabilize_buff_ticks := List.replicate 16 0,
      node_type := List.replicate 32 0,
      node_hazard := List.replicate 32 0,
      node_pirate := List.replicate 32 0,
      neighbors := List.replicate 32 (List.replicate 6 0),
      edge_travel_time := List.replicate 32 (List.replicate 6 0),
      edge_fuel_cost := List.replicate 32 (List.replicate 6 0),
      edge_threat_true := List.replicate 32 (List.replicate 6 0),
      edge_threat_est := List.replicate 32 (List.replicate 6 0),
      ast_valid := zero2b, true_comp := zero3q, richness := zero2q,
      stability_true := zero2q, noise_profile := zero2q,
      comp_est := zero3q, stability_est := zero2q, scan_conf := zero2q,
      depletion := zero2q,
      steps_to_station := List.replicate 32 0,
      market_price := List.replicate 6 0,
      market_prev_price := List.replicate 6 0,
      price_phase := List.replicate 6 0,
      price_period := List.replicate 6 0,
      price_amp := List.replicate 6 0,
      station_inventory := List.replicate 6 0,
      recent_sales := List.replicate 6 0,
      total_spend := 0, overheat_ticks := 0, pirate_encounters := 0,
      value_lost_to_pirates := 0, scan_count := 0, mining_ticks := 0,
      fuel_start := 1000, hull_start := 100, tool_start := 100,
      cargo_util_sum := 0, cargo_util_count := 0 }
  abp_generate_world ops s0

/-- abp_core_create (the malloc wrapper around abp_core_init). -/
def abp_core_create (ops : FloatOps) (config : AbpCoreConfig) (seed : ℕ) :
    AbpCoreState :=
  abp_core_init ops config seed

/-- abp_core_reset: reinitialize the whole instance from the new seed,
preserving only the stored configuration. -/
def abp_core_reset (ops : FloatOps) (s : AbpCoreState) (seed : ℕ) :
    AbpCoreState :=
  abp_core_init ops s.config seed

/-- Outcome of one dispatched action branch: successor state, branch
tick duration, invalid flag, voluntary-termination flag. -/
structure AbpDispatchOut where
  st : AbpCoreState
  dt : ℕ
  invalid : Bool
  terminated : Bool

/-- The action dispatch chain of abp_core_step (lines 1485-1606 of
abp_core.c), for an action code already coerced below 69. -/
def abp_dispatch (ops : FloatOps) (s : AbpCoreState) (a : ℕ) : AbpDispatchOut :=
  if a ≤ 5 then
    let r := abp_apply_travel ops s a
    ⟨r.1, r.2.1, r.2.2, false⟩
  else if a = 6 then ⟨abp_apply_hold s, 1, false, false⟩
  else if a = 7 then ⟨abp_apply_emergency_burn s, 1, false, false⟩
  else if a = 8 then
    let s1 := { s with fuel := s.fuel - 5, alert := s.alert + 4 }
    let s2 := abp_update_cluster_priors_with_noise ops s1
    ⟨{ s2 with scan_count := s2.scan_count + 1 }, 3, false, false⟩
  else if a = 9 then
    let s1 := { s with fuel := s.fuel - 4, alert := s.alert + 3 }
    if abp_selected_asteroid_valid s1 = false then ⟨s1, 2, true, false⟩
    else
      let s2 := abp_update_asteroid_estimates ops s1 s1.selected_asteroid.toNat 1
      ⟨{ s2 with scan_count := s2.scan_count + 1 }, 2, false, false⟩
  else if a = 10 then
    let s1 := { s with fuel := s.fuel - 8, alert := s.alert + 6 }
    if abp_selected_asteroid_valid s1 = false then ⟨s1, 4, true, false⟩
    else
      let s2 := abp_update_asteroid_estimates ops s1 s1.selected_asteroid.toNat 2
      ⟨{ s2 with scan_count := s2.scan_count + 1 }, 4, false, false⟩
  else if a = 11 then ⟨abp_update_neighbor_threat_estimates ops s, 2, false, false⟩
  else if a ≤ 27 then
    let r := abp_select_asteroid s ((a : Int) - 12)
    ⟨r.2, 1, !r.1, false⟩
  else if a ≤ 30 then
    if abp_selected_asteroid_valid s = false then ⟨s, 1, true, false⟩
    else ⟨abp_mine_selected ops s a, 1, false, false⟩
  else if a = 31 then
    if abp_selected_asteroid_valid s = false ∨ s.stabilizers = 0 then ⟨s, 2, true, false⟩
    else
      let sbt := s.stabilize_buff_ticks.set s.selected_asteroid.toNat 6
      ⟨{ s with stabilizers := s.stabilizers - 1, stabilize_buff_ticks := sbt }, 2, false, false⟩
  else if a = 32 then
    let s1 := { s with fuel := s.fuel - 4, heat := s.heat + 6, alert := s.alert + 3 }
    ⟨abp_refine_some_cargo s1, 2, false, false⟩
  else if a = 33 then
    ⟨{ s with fuel := s.fuel - 2, heat := max 0 (s.heat - 20), alert := s.alert + 1 },
      2, false, false⟩
  else if a = 34 then
    if s.repair_kits = 0 then ⟨s, 2, true, false⟩
    else
      ⟨{ s with repair_kits := s.repair_kits - 1,
                tool_condition := min 100 (s.tool_condition + 25) }, 2, false, false⟩
  else if a = 35 then
    if s.repair_kits = 0 then ⟨s, 2, true, false⟩
    else
      ⟨{ s with repair_kits := s.repair_kits - 1,
                hull := min 100 (s.hull + 20) }, 2, false, false⟩
  else if a ≤ 41 then
    ⟨{ s with cargo := s.cargo.set (a - 36) 0, alert := max 0 (s.alert - 8) },
      1, false, false⟩
  else if a = 42 then
    if abp_is_at_station s = false then ⟨s, 1, true, false⟩
    else ⟨{ s with alert := max 0 (s.alert - 20) }, 1, false, false⟩
  else if a ≤ 60 then
    if abp_is_at_station s = false then ⟨s, 1, true, false⟩
    else ⟨abp_sell_action ops s a, 1, false, false⟩
  else if a ≤ 66 then
    if abp_is_at_station s = false then ⟨s, 1, true, false⟩
    else
      let r := abp_purchase_station_item s a
      ⟨r.2, 1, !r.1, false⟩
  else if a = 67 then
    if abp_is_at_station s = false ∨ s.credits < 280 then ⟨s, 3, true, false⟩
    else
      ⟨{ s with credits := s.credits - 280, total_spend := s.total_spend + 280,
                hull := 100, tool_condition := 100 }, 3, false, false⟩
  else if a = 68 then ⟨s, 1, false, true⟩
  else ⟨s, 1, true, false⟩

/-- One step result (AbpCoreStepResult), carrying the successor state of
the instance alongside the outputs written into the C out-struct. -/
structure AbpCoreStepResult where
  state : AbpCoreState
  obs : List ℚ
  reward : ℚ
  terminated : Bool
  truncated : Bool
  invalid_action : Bool
  dt : ℕ
  action : Int
  metrics : AbpMetrics

/-- The tail of abp_core_step after the dispatched branch: global
dynamics with the final dt, tick advance, termination and truncation
evaluation, reward, observation, metrics, sticky flag. -/
def abp_finish_step (ops : FloatOps) (s2 : AbpCoreState) (a' dt : ℕ)
    (invalid term0 : Bool) (snap : AbpStepSnapshot) : AbpCoreStepResult :=
  let s3 := abp_apply_global_dynamics ops s2 dt
  let s4 := { s3 with ticks_elapsed := s3.ticks_elapsed + dt }
  let destroyed : Bool := decide (s4.hull ≤ 0)
  let stranded : Bool := decide (s4.fuel ≤ 0) && !abp_is_at_station s4
  let terminated : Bool := term0 || destroyed || stranded
  let truncated : Bool := decide (s4.time_remaining ≤ 0) && !terminated
  let done := terminated || truncated
  let cargo_value_after := abp_est_cargo_value s4
  let reward := abp_compute_reward s4 snap cargo_value_after a' dt invalid
    destroyed stranded done
  let obs := abp_pack_obs ops s4
  let metrics := abp_fill_step_metrics s4 destroyed stranded
  { state := { s4 with needs_reset := done }, obs := obs, reward := reward,
    terminated := terminated, truncated := truncated, invalid_action := invalid,
    dt := dt, action := (a' : Int), metrics := metrics }

/-- abp_core_step: sticky-flag short circuit, snapshot, out-of-range
coercion to hold, dispatch, the forced hold and dt on invalid, and the
shared finishing path. -/
def abp_core_step (ops : FloatOps) (s : AbpCoreState) (a : ℕ) :
    AbpCoreStepResult :=
  if s.needs_reset then
    { state := s, obs := abp_pack_obs ops s, reward := 0, terminated := true,
      truncated := false, invalid_action := true, dt := 0, action := -1,
      metrics := abp_fill_step_metrics s false false }
  else
    let snap := abp_make_snapshot s
    let inv0 : Bool := decide (69 ≤ a)
    let a' := if 69 ≤ a then 6 else a
    let d := abp_dispatch ops s a'
    let invalid := inv0 || d.invalid
    if invalid then
      abp_finish_step ops (abp_apply_hold d.st) a' 1 true d.terminated snap
    else
      abp_finish_step ops d.st a' d.dt false d.terminated snap

/-- Replay a list of actions from a state, collecting every step result
(the trajectory a training loop would observe). -/
def abp_run (ops : FloatOps) : AbpCoreState → List ℕ → List AbpCoreStepResult
  | _, [] => []
  | s, a :: rest =>
    let r := abp_core_step ops s a
    r :: abp_run ops r.state rest

/-- Reference rational surrogates for the math library functions, used
only to instantiate the universally quantified theorems and the concrete
evaluations at specific inputs.  The log surrogate is negative on (0,1)
and zero at 1, matching the sign facts the sanity predicate demands. -/
def refOps : FloatOps :=
  { exp := fun x => 1 + x, log := fun u => u - 1, sin := fun _ => 0,
    cos := fun _ => 1, sqrt := fun x => x, log1p := fun x => x }

set_option maxRecDepth 100000

/-- The analytic sign fact about the C logf that the engine relies on:
log is negative on the draw interval [1e-8, 1).  Theorems needing it take
this predicate as a hypothesis on the math-library record. -/
def OpsSane (ops : FloatOps) : Prop :=
  ∀ u : ℚ, 1.0e-8 ≤ u → u < 1 → ops.log u < 0

/-- A vector of nonnegative entries summing to exactly 1 (the model is
exact where the C floats are correct to tolerance). -/
def is_prob_simplex (v : List ℚ) : Prop :=
  (∀ x ∈ v, 0 ≤ x) ∧ v.sum = 1

/-- abp_clampf transcribed on the reals. -/
noncomputable def abp_clampf_real (value low high : ℝ) : ℝ :=
  if value < low then low
  else if high < value then high
  else value

/-- The market-impact ratio of abp_slippage on the reals: quantity over
inventory-plus-quantity (floored at 1). -/
noncomputable def abp_sale_ratio (qty inventory : ℝ) : ℝ :=
  qty / max 1 (inventory + qty)

/-- abp_slippage transcribed on the reals with the genuine square root,
for the analytic monotonicity statement. -/
noncomputable def abp_slippage_real (qty inventory : ℝ) : ℝ :=
  if qty ≤ 0 then 0
  else abp_clampf_real (0.25 * abp_sale_ratio qty inventory +
    0.2 * Real.sqrt (abp_sale_ratio qty inventory)) 0 0.70

/-- A small hand-built instance state docked at the station (node 0 of a
two-node world), with alert 10, credits 100, a full fuel tank and 8 units
of commodity 0 in cargo; used to instantiate theorems on concrete
inputs. -/
def sStation : AbpCoreState :=
  { config := abp_core_default_config, rng := { state := 1, inc := 109 }, seed := 0,
    ticks_elapsed := 0, time_remaining := 20000, needs_reset := false,
    node_count := 2, current_node := 0, selected_asteroid := -1,
    credits := 100, fuel := 1000, hull := 100, heat := 0,
    tool_condition := 100, alert := 10, cargo := [8, 0, 0, 0, 0, 0],
    repair_kits := 3, stabilizers := 2, decoys := 1, escape_buff_ticks := 0,
    stabilize_buff_ticks := List.replicate 16 0,
    node_type := [0, 1], node_hazard := [0, 0], node_pirate := [0, 0],
    neighbors := [], edge_travel_time := [], edge_fuel_cost := [],
    edge_threat_true := [], edge_threat_est := [],
    ast_valid := [], true_comp := [], richness := [], stability_true := [],
    noise_profile := [], comp_est := [], stability_est := [], scan_conf := [],
    depletion := [], steps_to_station := [0, 1],
    market_price := [45, 55, 85, 145, 210, 120],
    market_prev_price := [45, 55, 85, 145, 210, 120],
    price_phase := [0, 0, 0, 0, 0, 0], price_period := [200, 200, 200, 200, 200, 200],
    price_amp := [0, 0, 0, 0, 0, 0],
    station_inventory := [50, 50, 50, 50, 50, 50],
    recent_sales := [0, 0, 0, 0, 0, 0],
    total_spend := 0, overheat_ticks := 0, pirate_encounters := 0,
    value_lost_to_pirates := 0, scan_count := 0, mining_ticks := 0,
    fuel_start := 1000, hull_start := 100, tool_start := 100,
    cargo_util_sum := 0, cargo_util_count := 0 }

/-- The same instance carrying the sticky finished flag from a prior
terminal step. -/
def sFinished : AbpCoreState := { sStation with needs_reset := true }

/-- The bounds of spec section 8: every bounded scalar in its domain,
every cargo slot in [0, 200], total cargo at most capacity. -/
def state_in_bounds (s : AbpCoreState) : Prop :=
  0 ≤ s.fuel ∧ s.fuel ≤ 1000 ∧ 0 ≤ s.hull ∧ s.hull ≤ 100 ∧
  0 ≤ s.heat ∧ s.heat ≤ 100 ∧ 0 ≤ s.tool_condition ∧ s.tool_condition ≤ 100 ∧
  0 ≤ s.alert ∧ s.alert ≤ 100 ∧
  (∀ x ∈ s.cargo, 0 ≤ x ∧ x ≤ 200) ∧ s.cargo.sum ≤ 200

/-- The success condition of each purchase action, read off
abp_buy_fuel and abp_buy_supply: fuel tiers demand only sufficient
credits, consumables demand credits and a count below the cap of 12. -/
def purchase_ok (s : AbpCoreState) (a : ℕ) : Prop :=
  (a = 61 ∧ 60 ≤ s.credits) ∨
  (a = 62 ∧ 120 ≤ s.credits) ∨
  (a = 63 ∧ 210 ≤ s.credits) ∨
  (a = 64 ∧ 150 ≤ s.credits ∧ s.repair_kits < 12) ∨
  (a = 65 ∧ 175 ≤ s.credits ∧ s.stabilizers < 12) ∨
  (a = 66 ∧ 110 ≤ s.credits ∧ s.decoys < 12)

/-- Every slot marked valid in the validity array carries a true
composition and a composition estimate that are probability simplices. -/
def arrays_ok (av : List (List Bool)) (tc ce : List (List (List ℚ))) : Prop :=
  ∀ n a_idx : ℕ, get2 av n a_idx false = true →
    is_prob_simplex ((tc.getD n []).getD a_idx []) ∧
    is_prob_simplex ((ce.getD n []).getD a_idx [])

/-- Every valid asteroid slot carries a true composition and a
composition estimate that are probability simplices. -/
def asteroid_simplices_ok (s : AbpCoreState) : Prop :=
  arrays_ok s.ast_valid s.true_comp s.comp_est

/-- Well-formed dimensions of the asteroid arrays: 32 node rows of 16
slots each, as allocated by the fixed C arrays. -/
def asteroid_dims_ok (s : AbpCoreState) : Prop :=
  s.ast_valid.length = 32 ∧ (∀ r ∈ s.ast_valid, r.length = 16) ∧
  s.true_comp.length = 32 ∧ (∀ r ∈ s.true_comp, r.length = 16) ∧
  s.comp_est.length = 32 ∧ (∀ r ∈ s.comp_est, r.length = 16)

theorem iterUp_inv {α : Type} {P : α → Prop} (f : ℕ → α → α)
    (hf : ∀ i x, P x → P (f i x)) :
    ∀ (lo n : ℕ) (a : α), P a → P (iterUp f lo n a) := by
  intro lo n
  induction n generalizing lo with
  | zero => intro a h; exact h
  | succ n ih => intro a h; exact ih (lo + 1) (f lo a) (hf lo a h)

theorem abp_finish_step_invalid (ops : FloatOps) (s2 : AbpCoreState)
    (a dt : ℕ) (inv t0 : Bool) (snap : AbpStepSnapshot) :
    (abp_finish_step ops s2 a dt inv t0 snap).invalid_action = inv := rfl

theorem abp_finish_step_dt (ops : FloatOps) (s2 : AbpCoreState)
    (a dt : ℕ) (inv t0 : Bool) (snap : AbpStepSnapshot) :
    (abp_finish_step ops s2 a dt inv t0 snap).dt = dt := rfl

theorem abp_finish_step_needs_reset (ops : FloatOps) (s2 : AbpCoreState)
    (a dt : ℕ) (inv t0 : Bool) (snap : AbpStepSnapshot) :
    (abp_finish_step ops s2 a dt inv t0 snap).state.needs_reset =
      ((abp_finish_step ops s2 a dt inv t0 snap).terminated ||
        (abp_finish_step ops s2 a dt inv t0 snap).truncated) := rfl

/-- C1: determinism.  In the embedding every operation is a pure function
of the instance state and its arguments (there is no global mutable
state to model), so the trajectory of observations, rewards, flags, dt
values, resolved actions and metrics is a function of (seed, actions):
an instance freshly created with a configuration and one reinitialized
by reset from any prior instance storing that configuration replay any
action sequence to identical step results. -/
theorem determinism_create_reset_replay (ops : FloatOps) (cfg : AbpCoreConfig)
    (seed : ℕ) (acts : List ℕ) (s : AbpCoreState) (h : s.config = cfg) :
    abp_run ops (abp_core_reset ops s seed) acts =
      abp_run ops (abp_core_create ops cfg seed) acts := by
  unfold abp_core_reset abp_core_create
  rw [h]

theorem determinism_create_reset_replay_witness :
    sStation.config = abp_core_default_config ∧
    abp_run refOps (abp_core_reset refOps sStation 7) [6, 8, 68] =
      abp_run refOps (abp_core_create refOps abp_core_default_config 7) [6, 8, 68] :=
  ⟨rfl, determinism_create_reset_replay refOps abp_core_default_config 7
    [6, 8, 68] sStation rfl⟩

/-- C2: post-terminal short-circuit.  With the sticky finished flag set,
a step with any action returns the unchanged state, the observation
encoded from that unchanged state, invalid_action true, terminated true,
truncated false, dt 0 and metrics computed from the unchanged state. -/
theorem post_terminal_short_circuit (ops : FloatOps) (s : AbpCoreState) (a : ℕ)
    (h : s.needs_reset = true) :
    (abp_core_step ops s a).state = s ∧
    (abp_core_step ops s a).obs = abp_pack_obs ops s ∧
    (abp_core_step ops s a).invalid_action = true ∧
    (abp_core_step ops s a).terminated = true ∧
    (abp_core_step ops s a).truncated = false ∧
    (abp_core_step ops s a).dt = 0 ∧
    (abp_core_step ops s a).action = -1 ∧
    (abp_core_step ops s a).metrics = abp_fill_step_metrics s false false := by
  simp [abp_core_step, h]

theorem post_terminal_short_circuit_witness :
    (abp_core_step refOps sFinished 3).state = sFinished ∧
    (abp_core_step refOps sFinished 3).obs = abp_pack_obs refOps sFinished ∧
    (abp_core_step refOps sFinished 3).invalid_action = true ∧
    (abp_core_step refOps sFinished 3).terminated = true ∧
    (abp_core_step refOps sFinished 3).truncated = false ∧
    (abp_core_step refOps sFinished 3).dt = 0 ∧
    (abp_core_step refOps sFinished 3).action = -1 ∧
    (abp_core_step refOps sFinished 3).metrics = abp_fill_step_metrics sFinished false false :=
  post_terminal_short_circuit refOps sFinished 3 rfl

theorem abp_core_step_sets_sticky (ops : FloatOps) (s : AbpCoreState) (a : ℕ)
    (h : s.needs_reset = false)
    (hdone : (abp_core_step ops s a).terminated = true ∨
      (abp_core_step ops s a).truncated = true) :
    (abp_core_step ops s a).state.needs_reset = true := by
  unfold abp_core_step at hdone ⊢
  simp only [h, Bool.false_eq_true, if_false] at hdone ⊢
  cases hB : (decide (69 ≤ a) || (abp_dispatch ops s (if 69 ≤ a then 6 else a)).invalid) with
  | true =>
    simp only [hB, if_true] at hdone ⊢
    rw [abp_finish_step_needs_reset]
    rcases hdone with hd | hd <;> simp [hd]
  | false =>
    simp only [hB, Bool.false_eq_true, if_false] at hdone ⊢
    rw [abp_finish_step_needs_reset]
    rcases hdone with hd | hd <;> simp [hd]

theorem abp_finish_step_action (ops : FloatOps) (s2 : AbpCoreState)
    (a dt : ℕ) (inv t0 : Bool) (snap : AbpStepSnapshot) :
    (abp_finish_step ops s2 a dt inv t0 snap).action = (a : Int) := rfl

/-- C3 (amended): every action code at or above 69 is marked invalid and
its resolved action is the hold code 6; its transition is the hold
transition with the hold effect applied twice (once by the coerced hold
branch and once more by the invalid path) plus the invalid penalty, and
is identical for every out-of-range code — but it is not the same
transition as stepping with the in-range hold code 6, which applies the
hold effect only once. -/
theorem action_boundary_amended (ops : FloatOps) (s : AbpCoreState) (a : ℕ)
    (ha : 69 ≤ a) (h : s.needs_reset = false) :
    abp_core_step ops s a =
      abp_finish_step ops (abp_apply_hold (abp_apply_hold s)) 6 1 true false
        (abp_make_snapshot s) ∧
    (abp_core_step ops s a).invalid_action = true ∧
    (abp_core_step ops s a).action = 6 ∧
    abp_core_step ops s a = abp_core_step ops s 69 := by
  have h6 : abp_dispatch ops s 6 = ⟨abp_apply_hold s, 1, false, false⟩ := rfl
  have e : ∀ b : ℕ, 69 ≤ b → abp_core_step ops s b =
      abp_finish_step ops (abp_apply_hold (abp_apply_hold s)) 6 1 true false
        (abp_make_snapshot s) := by
    intro b hb
    unfold abp_core_step
    simp only [h, Bool.false_eq_true, if_false]
    have hb' : (if 69 ≤ b then 6 else b) = 6 := if_pos hb
    have hdec : decide (69 ≤ b) = true := decide_eq_true hb
    rw [hb', hdec, h6]
    simp
  refine ⟨e a ha, ?_, ?_, ?_⟩
  · rw [e a ha, abp_finish_step_invalid]
  · rw [e a ha, abp_finish_step_action]; norm_num
  · rw [e a ha, e 69 (by norm_num)]

theorem action_boundary_counterexample :
    (abp_core_step refOps sStation 69).invalid_action = true ∧
    (abp_core_step refOps sStation 6).invalid_action = false ∧
    (abp_core_step refOps sStation 69).state.alert = 4 ∧
    (abp_core_step refOps sStation 6).state.alert = 7 := by
  with_unfolding_all decide

theorem action_boundary_amended_witness :
    69 ≤ 70 ∧ sStation.needs_reset = false ∧
    (abp_core_step refOps sStation 70 =
      abp_finish_step refOps (abp_apply_hold (abp_apply_hold sStation)) 6 1 true false
        (abp_make_snapshot sStation) ∧
    (abp_core_step refOps sStation 70).invalid_action = true ∧
    (abp_core_step refOps sStation 70).action = 6 ∧
    abp_core_step refOps sStation 70 = abp_core_step refOps sStation 69) :=
  ⟨by norm_num, rfl, action_boundary_amended refOps sStation 70 (by norm_num) rfl⟩

/-- C6: whenever a step on a live instance is marked invalid, for any
reason and any attempted action, the returned dt is forced to 1 and the
final state is obtained by applying the hold effect (alert decay of 3
floored at 0 plus one tick of passive heat dissipation, abp_apply_hold)
once on top of whatever the attempted branch already did, before the
shared global dynamics. -/
theorem invalid_forced_hold (ops : FloatOps) (s : AbpCoreState) (a : ℕ)
    (h : s.needs_reset = false)
    (hinv : (abp_core_step ops s a).invalid_action = true) :
    (abp_core_step ops s a).dt = 1 ∧
    abp_core_step ops s a =
      abp_finish_step ops
        (abp_apply_hold (abp_dispatch ops s (if 69 ≤ a then 6 else a)).st)
        (if 69 ≤ a then 6 else a) 1 true
        (abp_dispatch ops s (if 69 ≤ a then 6 else a)).terminated
        (abp_make_snapshot s) := by
  unfold abp_core_step at hinv ⊢
  simp only [h, Bool.false_eq_true, if_false] at hinv ⊢
  cases hB : (decide (69 ≤ a) || (abp_dispatch ops s (if 69 ≤ a then 6 else a)).invalid) with
  | true =>
    simp only [hB, if_true]
    exact ⟨rfl, trivial⟩
  | false =>
    simp only [hB, Bool.false_eq_true, if_false] at hinv
    rw [abp_finish_step_invalid] at hinv
    exact absurd hinv (by simp)

theorem invalid_forced_hold_witness :
    sStation.needs_reset = false ∧
    (abp_core_step refOps sStation 0).invalid_action = true ∧
    ((abp_core_step refOps sStation 0).dt = 1 ∧
      abp_core_step refOps sStation 0 =
        abp_finish_step refOps
          (abp_apply_hold (abp_dispatch refOps sStation (if 69 ≤ 0 then 6 else 0)).st)
          (if 69 ≤ 0 then 6 else 0) 1 true
          (abp_dispatch refOps sStation (if 69 ≤ 0 then 6 else 0)).terminated
          (abp_make_snapshot sStation)) :=
  ⟨rfl, by decide, invalid_forced_hold refOps sStation 0 rfl (by decide)⟩

theorem exists_len6 {α : Type} (l : List α) (h : l.length = 6) :
    ∃ a b c d e f : α, l = [a, b, c, d, e, f] := by
  rcases l with _ | ⟨a, l⟩
  · simp at h
  rcases l with _ | ⟨b, l⟩
  · simp at h
  rcases l with _ | ⟨c, l⟩
  · simp at h
  rcases l with _ | ⟨d, l⟩
  · simp at h
  rcases l with _ | ⟨e, l⟩
  · simp at h
  rcases l with _ | ⟨f, l⟩
  · simp at h
  rcases l with _ | ⟨g, l⟩
  · exact ⟨a, b, c, d, e, f, rfl⟩
  · simp at h

/-- C10: the refine conversion.  With positive low-value holdings
L = cargo[0]+cargo[1], abp_refine_some_cargo scales commodities 0 and 1
by (1 - 0.15), adds exactly 0.65 * 0.15 * L to commodity 4, leaves the
other slots untouched, and strictly decreases the total cargo sum; with
L nonpositive it changes nothing. -/
theorem refine_conversion (s : AbpCoreState) (hl : s.cargo.length = 6) :
    (0 < s.cargo.getD 0 0 + s.cargo.getD 1 0 →
      (abp_refine_some_cargo s).cargo.getD 0 0 = s.cargo.getD 0 0 * (1 - 0.15) ∧
      (abp_refine_some_cargo s).cargo.getD 1 0 = s.cargo.getD 1 0 * (1 - 0.15) ∧
      (abp_refine_some_cargo s).cargo.getD 4 0 =
        s.cargo.getD 4 0 + 0.65 * (0.15 * (s.cargo.getD 0 0 + s.cargo.getD 1 0)) ∧
      (abp_refine_some_cargo s).cargo.getD 2 0 = s.cargo.getD 2 0 ∧
      (abp_refine_some_cargo s).cargo.getD 3 0 = s.cargo.getD 3 0 ∧
      (abp_refine_some_cargo s).cargo.getD 5 0 = s.cargo.getD 5 0 ∧
      (abp_refine_some_cargo s).cargo.sum < s.cargo.sum) ∧
    (s.cargo.getD 0 0 + s.cargo.getD 1 0 ≤ 0 → abp_refine_some_cargo s = s) := by
  obtain ⟨a, b, c, d, e, f, hc⟩ := exists_len6 s.cargo hl
  unfold abp_refine_some_cargo
  rw [hc]
  constructor
  · intro hpos
    simp only [List.getD_cons_zero, List.getD_cons_succ] at hpos ⊢
    rw [if_neg (by linarith), if_neg (by linarith)]
    have hr : min 1 (0.15 * (a + b) / (a + b)) = (0.15 : ℚ) := by
      rw [mul_div_assoc, div_self (ne_of_gt hpos), mul_one]
      norm_num
    rw [hr]
    norm_num [List.set]
    linarith
  · intro hng
    simp only [List.getD_cons_zero, List.getD_cons_succ] at hng ⊢
    rw [if_pos hng]

theorem refine_conversion_witness :
    sStation.cargo.length = 6 ∧
    (0 : ℚ) < sStation.cargo.getD 0 0 + sStation.cargo.getD 1 0 ∧
    (abp_refine_some_cargo sStation).cargo.getD 0 0 =
      sStation.cargo.getD 0 0 * (1 - 0.15) ∧
    (abp_refine_some_cargo sStation).cargo.sum < sStation.cargo.sum := by
  have h := (refine_conversion sStation rfl).1 (by norm_num [sStation])
  exact ⟨rfl, by norm_num [sStation], h.1, h.2.2.2.2.2.2⟩

theorem dispatch_purchase (ops : FloatOps) (s : AbpCoreState) (a : ℕ)
    (h1 : 61 ≤ a) (h2 : a ≤ 66) :
    abp_dispatch ops s a =
      if abp_is_at_station s = false then ⟨s, 1, true, false⟩
      else ⟨(abp_purchase_station_item s a).2, 1, !(abp_purchase_station_item s a).1, false⟩ := by
  interval_cases a <;> simp [abp_dispatch]

theorem purchase_item_spec (s : AbpCoreState) (a : ℕ)
    (h1 : 61 ≤ a) (h2 : a ≤ 66) :
    ((abp_purchase_station_item s a).1 = true ↔ purchase_ok s a) ∧
    ((abp_purchase_station_item s a).1 = false →
      (abp_purchase_station_item s a).2 = s) := by
  interval_cases a <;>
    simp only [abp_purchase_station_item, abp_buy_fuel, abp_buy_supply, purchase_ok] <;>
    norm_num <;>
    split_ifs with hc <;>
    simp_all <;>
    first
      | linarith
      | omega
      | (intro hcr
         rcases hc with hc | hc
         · linarith
         · exact hc)


theorem step_from_dispatch_valid (ops : FloatOps) (s : AbpCoreState) (a : ℕ)
    (h : s.needs_reset = false) (h69 : ¬69 ≤ a)
    (st' : AbpCoreState) (dt' : ℕ) (t0 : Bool)
    (hd : abp_dispatch ops s a = ⟨st', dt', false, t0⟩) :
    abp_core_step ops s a =
      abp_finish_step ops st' a dt' false t0 (abp_make_snapshot s) := by
  unfold abp_core_step
  simp only [h, Bool.false_eq_true, if_false]
  rw [if_neg h69, hd, decide_eq_false h69]
  simp

theorem step_from_dispatch_invalid (ops : FloatOps) (s : AbpCoreState) (a : ℕ)
    (h : s.needs_reset = false) (h69 : ¬69 ≤ a)
    (st' : AbpCoreState) (dt' : ℕ) (t0 : Bool)
    (hd : abp_dispatch ops s a = ⟨st', dt', true, t0⟩) :
    abp_core_step ops s a =
      abp_finish_step ops (abp_apply_hold st') a 1 true t0 (abp_make_snapshot s) := by
  unfold abp_core_step
  simp only [h, Bool.false_eq_true, if_false]
  rw [if_neg h69, hd, decide_eq_false h69]
  simp

/-- C5 (amended): purchases 61-66 succeed only at the station.  The
repair kit, stabilizer and decoy purchases are invalid exactly when
credits are below cost or the consumable count is at its cap of 12; the
fuel-tier purchases are invalid exactly when credits are below cost — a
full fuel tank does not cause failure (the purchase still charges and
the tank stays clamped at 1000).  On failure the dispatched branch
leaves the state unchanged and only the invalid-path hold effect runs. -/
theorem purchase_conditions_amended (ops : FloatOps) (s : AbpCoreState) (a : ℕ)
    (h : s.needs_reset = false) (h1 : 61 ≤ a) (h2 : a ≤ 66) :
    ((abp_core_step ops s a).invalid_action = false ↔
      (abp_is_at_station s = true ∧ purchase_ok s a)) ∧
    ((abp_core_step ops s a).invalid_action = true →
      abp_core_step ops s a =
        abp_finish_step ops (abp_apply_hold s) a 1 true false (abp_make_snapshot s)) := by
  have h69 : ¬(69 ≤ a) := by omega
  have hd := dispatch_purchase ops s a h1 h2
  have hspec := purchase_item_spec s a h1 h2
  by_cases hst : abp_is_at_station s = true
  · cases hok : (abp_purchase_station_item s a).1 with
    | true =>
      have hd1 : abp_dispatch ops s a =
          ⟨(abp_purchase_station_item s a).2, 1, false, false⟩ := by
        rw [hd, if_neg (by simp [hst])]
        simp [hok]
      have hs := step_from_dispatch_valid ops s a h h69 _ _ _ hd1
      rw [hs]
      rw [abp_finish_step_invalid]
      constructor
      · constructor
        · intro _
          exact ⟨hst, hspec.1.mp hok⟩
        · intro _
          rfl
      · intro hcontra
        exact absurd hcontra (by simp)
    | false =>
      have hd1 : abp_dispatch ops s a = ⟨s, 1, true, false⟩ := by
        rw [hd, if_neg (by simp [hst])]
        simp [hok, hspec.2 hok]
      have hs := step_from_dispatch_invalid ops s a h h69 _ _ _ hd1
      rw [hs]
      rw [abp_finish_step_invalid]
      constructor
      · constructor
        · intro hfalse
          exact absurd hfalse (by simp)
        · intro hcon
          have hmp := hspec.1.mpr hcon.2
          rw [hok] at hmp
          exact absurd hmp (by simp)
      · intro _
        rfl
  · have hstf : abp_is_at_station s = false := by
      revert hst
      cases abp_is_at_station s <;> simp
    have hd1 : abp_dispatch ops s a = ⟨s, 1, true, false⟩ := by
      rw [hd, if_pos hstf]
    have hs := step_from_dispatch_invalid ops s a h h69 _ _ _ hd1
    rw [hs]
    rw [abp_finish_step_invalid]
    constructor
    · constructor
      · intro hfalse
        exact absurd hfalse (by simp)
      · intro hcon
        rw [hstf] at hcon
        exact absurd hcon.1 (by simp)
    · intro _
      rfl

theorem purchase_counterexample :
    abp_is_at_station sStation = true ∧
    sStation.fuel = 1000 ∧
    (60 : ℚ) ≤ sStation.credits ∧
    (abp_core_step refOps sStation 61).invalid_action = false := by
  refine ⟨rfl, rfl, by norm_num [sStation], ?_⟩
  with_unfolding_all decide

theorem purchase_conditions_amended_witness :
    sStation.needs_reset = false ∧ 61 ≤ 61 ∧ 61 ≤ 66 ∧
    (((abp_core_step refOps sStation 61).invalid_action = false ↔
      (abp_is_at_station sStation = true ∧ purchase_ok sStation 61)) ∧
    ((abp_core_step refOps sStation 61).invalid_action = true →
      abp_core_step refOps sStation 61 =
        abp_finish_step refOps (abp_apply_hold sStation) 61 1 true false
          (abp_make_snapshot sStation))) :=
  ⟨rfl, by norm_num, by norm_num,
    purchase_conditions_amended refOps sStation 61 rfl (by norm_num) (by norm_num)⟩

/-- C4 fails on the code: at seed 1279 world generation yields 13 nodes,
but node 11 ends with every neighbor slot empty — its spanning-tree
attachment was silently dropped because the chosen parent already had
all 6 neighbor slots occupied (abp_add_edge returns without linking),
and no later edge reached it — so node 11 is unreachable from the
station and its cached BFS distance is the saturated sentinel 31.  The
graph structure only consumes integer RNG draws, so it is independent of
the math-library record used here. -/
theorem world_disconnected_seed_1279 :
    (abp_core_init refOps abp_core_default_config 1279).node_count = 13 ∧
    (abp_core_init refOps abp_core_default_config 1279).neighbors.getD 11 [] =
      [-1, -1, -1, -1, -1, -1] ∧
    (abp_core_init refOps abp_core_default_config 1279).steps_to_station.getD 11 0 = 31 := by
  with_unfolding_all decide

theorem abp_clampf_mem (x lo hi : ℚ) (h : lo ≤ hi) :
    lo ≤ abp_clampf x lo hi ∧ abp_clampf x lo hi ≤ hi := by
  unfold abp_clampf
  split_ifs <;> constructor <;> linarith

theorem list_sum_map_mul (l : List ℚ) (k : ℚ) :
    (l.map (fun x => x * k)).sum = l.sum * k := by
  induction l with
  | nil => simp
  | cons x xs ih => simp [ih]; ring

theorem clamp_state_bounds (s : AbpCoreState) :
    state_in_bounds (abp_clamp_state s) := by
  have hmem1 : ∀ x ∈ (List.range 6).map (fun c => abp_clampf (s.cargo.getD c 0) 0 200),
      0 ≤ x ∧ x ≤ 200 := by
    intro x hx
    obtain ⟨c, _, rfl⟩ := List.mem_map.mp hx
    exact abp_clampf_mem _ 0 200 (by norm_num)
  have hcargo_eq : (abp_clamp_state s).cargo =
      (if 200 < ((List.range 6).map (fun c => abp_clampf (s.cargo.getD c 0) 0 200)).sum ∧
          0 < ((List.range 6).map (fun c => abp_clampf (s.cargo.getD c 0) 0 200)).sum then
        ((List.range 6).map (fun c => abp_clampf (s.cargo.getD c 0) 0 200)).map
          (fun c => c * (200 /
            ((List.range 6).map (fun c => abp_clampf (s.cargo.getD c 0) 0 200)).sum))
      else (List.range 6).map (fun c => abp_clampf (s.cargo.getD c 0) 0 200)) := rfl
  unfold state_in_bounds
  refine ⟨(abp_clampf_mem s.fuel 0 1000 (by norm_num)).1,
    (abp_clampf_mem s.fuel 0 1000 (by norm_num)).2,
    (abp_clampf_mem s.hull 0 100 (by norm_num)).1,
    (abp_clampf_mem s.hull 0 100 (by norm_num)).2,
    (abp_clampf_mem s.heat 0 100 (by norm_num)).1,
    (abp_clampf_mem s.heat 0 100 (by norm_num)).2,
    (abp_clampf_mem s.tool_condition 0 100 (by norm_num)).1,
    (abp_clampf_mem s.tool_condition 0 100 (by norm_num)).2,
    (abp_clampf_mem s.alert 0 100 (by norm_num)).1,
    (abp_clampf_mem s.alert 0 100 (by norm_num)).2,
    ?_, ?_⟩
  · rw [hcargo_eq]
    by_cases hcap : 200 < ((List.range 6).map (fun c => abp_clampf (s.cargo.getD c 0) 0 200)).sum ∧
        0 < ((List.range 6).map (fun c => abp_clampf (s.cargo.getD c 0) 0 200)).sum
    · rw [if_pos hcap]
      intro x hx
      obtain ⟨y, hy, rfl⟩ := List.mem_map.mp hx
      have hy' := hmem1 y hy
      have hle := List.single_le_sum (fun z hz => (hmem1 z hz).1) y hy
      have hpos := hcap.2
      constructor
      · exact mul_nonneg hy'.1 (le_of_lt (div_pos (by norm_num) hpos))
      · calc y * (200 / ((List.range 6).map (fun c => abp_clampf (s.cargo.getD c 0) 0 200)).sum)
            ≤ ((List.range 6).map (fun c => abp_clampf (s.cargo.getD c 0) 0 200)).sum *
              (200 / ((List.range 6).map (fun c => abp_clampf (s.cargo.getD c 0) 0 200)).sum) :=
              mul_le_mul_of_nonneg_right hle (le_of_lt (div_pos (by norm_num) hpos))
          _ = 200 := by
              rw [mul_comm]
              exact div_mul_cancel₀ 200 (ne_of_gt hpos)
    · rw [if_neg hcap]
      exact hmem1
  · rw [hcargo_eq]
    by_cases hcap : 200 < ((List.range 6).map (fun c => abp_clampf (s.cargo.getD c 0) 0 200)).sum ∧
        0 < ((List.range 6).map (fun c => abp_clampf (s.cargo.getD c 0) 0 200)).sum
    · rw [if_pos hcap]
      rw [list_sum_map_mul]
      rw [mul_div_cancel₀ _ (ne_of_gt hcap.2)]
    · rw [if_neg hcap]
      rcases not_and_or.mp hcap with hc | hc
      · linarith [not_lt.mp hc]
      · linarith [not_lt.mp hc]

theorem state_in_bounds_of_fields (s t : AbpCoreState) (h : state_in_bounds s)
    (hfuel : t.fuel = s.fuel) (hhull : t.hull = s.hull) (hheat : t.heat = s.heat)
    (htool : t.tool_condition = s.tool_condition) (halert : t.alert = s.alert)
    (hcargo : t.cargo = s.cargo) : state_in_bounds t := by
  unfold state_in_bounds at h ⊢
  rw [hfuel, hhull, hheat, htool, halert, hcargo]
  exact h

theorem global_dynamics_bounds (ops : FloatOps) (s : AbpCoreState) (dt : ℕ) :
    state_in_bounds (abp_apply_global_dynamics ops s dt) := by
  apply state_in_bounds_of_fields _ _ (clamp_state_bounds _) <;> rfl

theorem finish_state_bounds (ops : FloatOps) (s2 : AbpCoreState) (a dt : ℕ)
    (inv t0 : Bool) (snap : AbpStepSnapshot) :
    state_in_bounds (abp_finish_step ops s2 a dt inv t0 snap).state := by
  apply state_in_bounds_of_fields _ _ (global_dynamics_bounds ops s2 dt) <;> rfl

/-- C7: after every non-short-circuited step, fuel lies in [0,1000],
hull, heat, tool condition and alert in [0,100], every cargo slot in
[0,200], and the total cargo sum is at most 200 (exactly, in the
rational model: the proportional rescale lands the sum on 200). -/
theorem step_bounds (ops : FloatOps) (s : AbpCoreState) (a : ℕ)
    (h : s.needs_reset = false) :
    state_in_bounds (abp_core_step ops s a).state := by
  unfold abp_core_step
  simp only [h, Bool.false_eq_true, if_false]
  cases hB : (decide (69 ≤ a) || (abp_dispatch ops s (if 69 ≤ a then 6 else a)).invalid) with
  | true =>
    simp only [hB, if_true]
    exact finish_state_bounds ops _ _ _ _ _ _
  | false =>
    simp only [hB, Bool.false_eq_true, if_false]
    exact finish_state_bounds ops _ _ _ _ _ _

theorem step_bounds_witness :
    sStation.needs_reset = false ∧ state_in_bounds (abp_core_step refOps sStation 8).state :=
  ⟨rfl, step_bounds refOps sStation 8 rfl⟩

theorem getD_set_self_of_lt {α : Type} (l : List α) (i : ℕ) (v d : α)
    (h : i < l.length) : (l.set i v).getD i d = v := by
  induction l generalizing i with
  | nil => simp at h
  | cons x xs ih =>
    cases i with
    | zero => rfl
    | succ n =>
      simp only [List.length_cons] at h
      exact ih n (by omega)

theorem getD_set_ne' {α : Type} (l : List α) (i j : ℕ) (v d : α) (h : i ≠ j) :
    (l.set i v).getD j d = l.getD j d := by
  induction l generalizing i j with
  | nil => simp [List.set]
  | cons x xs ih =>
    cases i with
    | zero =>
      cases j with
      | zero => exact absurd rfl h
      | succ m => rfl
    | succ n =>
      cases j with
      | zero => rfl
      | succ m => exact ih n m (fun hh => h (by rw [hh]))

theorem set_of_length_le {α : Type} (l : List α) (i : ℕ) (v : α)
    (h : l.length ≤ i) : l.set i v = l := by
  induction l generalizing i with
  | nil => rfl
  | cons x xs ih =>
    cases i with
    | zero => simp at h
    | succ n =>
      simp only [List.length_cons] at h
      simp [List.set, ih n (by omega)]

theorem getD_range6_map (f : ℕ → ℚ) (c : ℕ) (hc : c < 6) :
    ((List.range 6).map f).getD c 0 = f c := by
  interval_cases c <;> rfl

theorem slippage_real_strict_mono (q1 i1 q2 i2 : ℝ) (hq1 : 0 < q1) (hq2 : 0 < q2)
    (hi1 : 0 ≤ i1) (hi2 : 0 ≤ i2)
    (hr : abp_sale_ratio q1 i1 < abp_sale_ratio q2 i2) :
    abp_slippage_real q1 i1 < abp_slippage_real q2 i2 := by
  have key : ∀ q i : ℝ, 0 < q → 0 ≤ i →
      0 < abp_sale_ratio q i ∧ abp_sale_ratio q i ≤ 1 ∧
      abp_slippage_real q i =
        0.25 * abp_sale_ratio q i + 0.2 * Real.sqrt (abp_sale_ratio q i) := by
    intro q i hq hi
    have hmax : (1 : ℝ) ≤ max 1 (i + q) := le_max_left _ _
    have hmaxpos : (0 : ℝ) < max 1 (i + q) := lt_of_lt_of_le one_pos hmax
    have hrpos : 0 < abp_sale_ratio q i := div_pos hq hmaxpos
    have hqle : q ≤ max 1 (i + q) := by
      rcases le_or_lt 1 (i + q) with hcase | hcase
      · rw [max_eq_right hcase]; linarith
      · rw [max_eq_left (le_of_lt hcase)]; linarith
    have hrle : abp_sale_ratio q i ≤ 1 := by
      rw [abp_sale_ratio, div_le_one hmaxpos]; exact hqle
    have hsq : Real.sqrt (abp_sale_ratio q i) ≤ 1 := by
      rw [show (1 : ℝ) = Real.sqrt 1 by rw [Real.sqrt_one]]
      exact Real.sqrt_le_sqrt hrle
    have hsq0 : 0 ≤ Real.sqrt (abp_sale_ratio q i) := Real.sqrt_nonneg _
    have hraw0 : 0 ≤ 0.25 * abp_sale_ratio q i + 0.2 * Real.sqrt (abp_sale_ratio q i) := by
      nlinarith [hrpos.le]
    have hraw45 : 0.25 * abp_sale_ratio q i + 0.2 * Real.sqrt (abp_sale_ratio q i) ≤ 0.45 := by
      nlinarith
    refine ⟨hrpos, hrle, ?_⟩
    rw [abp_slippage_real, if_neg (not_le.mpr hq), abp_clampf_real]
    rw [if_neg (not_lt.mpr hraw0), if_neg (not_lt.mpr (by linarith))]
  obtain ⟨h1pos, h1le, h1eq⟩ := key q1 i1 hq1 hi1
  obtain ⟨h2pos, h2le, h2eq⟩ := key q2 i2 hq2 hi2
  rw [h1eq, h2eq]
  have hsqlt : Real.sqrt (abp_sale_ratio q1 i1) < Real.sqrt (abp_sale_ratio q2 i2) :=
    Real.sqrt_lt_sqrt h1pos.le hr
  nlinarith [hr, hsqlt]

theorem track_cargo (s : AbpCoreState) (dt : ℕ) :
    (abp_track_cargo_utilization s dt).cargo = s.cargo := rfl

theorem update_market_cargo (ops : FloatOps) (s : AbpCoreState) (dt : ℕ) :
    (abp_update_market ops s dt).cargo = s.cargo := rfl

theorem finish_state_cargo (ops : FloatOps) (s2 : AbpCoreState) (a dt : ℕ)
    (inv t0 : Bool) (snap : AbpStepSnapshot) :
    (abp_finish_step ops s2 a dt inv t0 snap).state.cargo =
      (abp_apply_global_dynamics ops s2 dt).cargo := rfl

theorem clamp_cargo_zero (s : AbpCoreState) (c : ℕ) (hc : c < 6)
    (h0 : s.cargo.getD c 0 = 0) :
    (abp_clamp_state s).cargo.getD c 0 = 0 := by
  have hcargo_eq : (abp_clamp_state s).cargo =
      (if 200 < ((List.range 6).map (fun k => abp_clampf (s.cargo.getD k 0) 0 200)).sum ∧
          0 < ((List.range 6).map (fun k => abp_clampf (s.cargo.getD k 0) 0 200)).sum then
        ((List.range 6).map (fun k => abp_clampf (s.cargo.getD k 0) 0 200)).map
          (fun x => x * (200 /
            ((List.range 6).map (fun k => abp_clampf (s.cargo.getD k 0) 0 200)).sum))
      else (List.range 6).map (fun k => abp_clampf (s.cargo.getD k 0) 0 200)) := rfl
  have hclamp0 : abp_clampf (s.cargo.getD c 0) 0 200 = 0 := by
    rw [h0]
    norm_num [abp_clampf]
  rw [hcargo_eq]
  by_cases hcap : 200 < ((List.range 6).map (fun k => abp_clampf (s.cargo.getD k 0) 0 200)).sum ∧
      0 < ((List.range 6).map (fun k => abp_clampf (s.cargo.getD k 0) 0 200)).sum
  · rw [if_pos hcap, List.map_map]
    rw [getD_range6_map _ c hc]
    simp only [Function.comp]
    rw [hclamp0, zero_mul]
  · rw [if_neg hcap, getD_range6_map _ c hc, hclamp0]

theorem dynamics_cargo_zero_at_station (ops : FloatOps) (s1 : AbpCoreState)
    (dt c : ℕ) (hc : c < 6) (hst : abp_is_at_station s1 = true)
    (h0 : s1.cargo.getD c 0 = 0) :
    (abp_apply_global_dynamics ops s1 dt).cargo.getD c 0 = 0 := by
  simp only [abp_apply_global_dynamics]
  split_ifs <;>
    first
      | (rw [track_cargo]
         apply clamp_cargo_zero _ _ hc
         rw [update_market_cargo]
         exact h0)
      | (exact absurd hst (by assumption))

theorem sell_action_station (ops : FloatOps) (s : AbpCoreState) (a : ℕ) :
    abp_is_at_station (abp_sell_action ops s a) = abp_is_at_station s := by
  simp only [abp_sell_action]
  split_ifs <;> rfl

theorem list_set_max_nonneg (l : List ℚ) (idx : ℕ) (x : ℚ)
    (h0 : 0 ≤ l.getD idx 0) : 0 ≤ (l.set idx (0 ⊔ x)).getD idx 0 := by
  by_cases hlen : idx < l.length
  · rw [getD_set_self_of_lt _ _ _ _ hlen]
    exact le_max_left 0 _
  · rw [set_of_length_le _ _ _ (by omega)]
    exact h0

theorem sell100_cargo_zero (ops : FloatOps) (s : AbpCoreState) (c : ℕ)
    (hc : c < 6) (hl : s.cargo.length = 6) (hpos : 0 < s.cargo.getD c 0) :
    (abp_sell_action ops s (43 + 3 * c + 2)).cargo.getD c 0 = 0 := by
  have hcidx : (43 + 3 * c + 2 - 43) / 3 = c := by omega
  have hbucket : (43 + 3 * c + 2 - 43) % 3 = 2 := by omega
  have hval : ∀ (L : List ℚ) (x : ℚ), L.length = 6 →
      (L.set c (0 ⊔ (x - x * 1.0))).getD c 0 = 0 := by
    intro L x hL
    rw [getD_set_self_of_lt _ _ _ _ (by omega)]
    norm_num
  simp only [abp_sell_action, hcidx, hbucket]
  simp only [show ((2 : ℕ) = 0) = False by simp, show ((2 : ℕ) = 1) = False by simp, if_false]
  rw [if_neg (by push_neg; linarith [hpos])]
  exact hval s.cargo (s.cargo.getD c 0) hl

theorem sell_action_nonneg (ops : FloatOps) (s : AbpCoreState) (a : ℕ)
    (h0 : 0 ≤ s.cargo.getD ((a - 43) / 3) 0) :
    0 ≤ (abp_sell_action ops s a).cargo.getD ((a - 43) / 3) 0 ∧
    ∀ i, i ≠ (a - 43) / 3 →
      (abp_sell_action ops s a).cargo.getD i 0 = s.cargo.getD i 0 := by
  simp only [abp_sell_action]
  split_ifs <;>
    first
      | exact ⟨h0, fun i _ => rfl⟩
      | exact ⟨list_set_max_nonneg s.cargo _ _ h0,
          fun i hi => getD_set_ne' s.cargo _ i _ 0 (fun hh => hi hh.symm)⟩

theorem step_sell100_zero (ops : FloatOps) (s : AbpCoreState) (c : ℕ)
    (hc : c < 6) (hl : s.cargo.length = 6) (h : s.needs_reset = false)
    (hst : abp_is_at_station s = true) (hpos : 0 < s.cargo.getD c 0) :
    (abp_core_step ops s (43 + 3 * c + 2)).state.cargo.getD c 0 = 0 := by
  have h69 : ¬(69 ≤ 43 + 3 * c + 2) := by omega
  have hd : abp_dispatch ops s (43 + 3 * c + 2) =
      ⟨abp_sell_action ops s (43 + 3 * c + 2), 1, false, false⟩ := by
    interval_cases c <;> simp [abp_dispatch, hst]
  have hs := step_from_dispatch_valid ops s _ h h69 _ _ _ hd
  rw [hs, finish_state_cargo]
  apply dynamics_cargo_zero_at_station ops _ 1 c hc
  · rw [sell_action_station]
    exact hst
  · exact sell100_cargo_zero ops s c hc hl hpos

/-- C9: at the station a sell-100-percent action on a commodity with
positive holdings drives that cargo slot to exactly 0 after the full
step; no sell action drives the sold slot negative (and it touches no
other slot); and the slippage fraction, transcribed on the reals with
the genuine square root, is strictly increasing in the ratio of quantity
to inventory-plus-quantity for positive quantities. -/
theorem sell_zero_and_slippage_mono :
    (∀ (ops : FloatOps) (s : AbpCoreState) (c : ℕ), c < 6 → s.cargo.length = 6 →
      s.needs_reset = false → abp_is_at_station s = true → 0 < s.cargo.getD c 0 →
      (abp_core_step ops s (43 + 3 * c + 2)).state.cargo.getD c 0 = 0) ∧
    (∀ (ops : FloatOps) (s : AbpCoreState) (a : ℕ), 0 ≤ s.cargo.getD ((a - 43) / 3) 0 →
      0 ≤ (abp_sell_action ops s a).cargo.getD ((a - 43) / 3) 0 ∧
      ∀ i, i ≠ (a - 43) / 3 →
        (abp_sell_action ops s a).cargo.getD i 0 = s.cargo.getD i 0) ∧
    (∀ q1 i1 q2 i2 : ℝ, 0 < q1 → 0 < q2 → 0 ≤ i1 → 0 ≤ i2 →
      abp_sale_ratio q1 i1 < abp_sale_ratio q2 i2 →
      abp_slippage_real q1 i1 < abp_slippage_real q2 i2) :=
  ⟨fun ops s c hc hl h hst hpos => step_sell100_zero ops s c hc hl h hst hpos,
   fun ops s a h0 => sell_action_nonneg ops s a h0,
   fun q1 i1 q2 i2 hq1 hq2 hi1 hi2 hr =>
     slippage_real_strict_mono q1 i1 q2 i2 hq1 hq2 hi1 hi2 hr⟩

theorem sell_zero_and_slippage_mono_witness :
    (abp_core_step refOps sStation 45).state.cargo.getD 0 0 = 0 ∧
    abp_slippage_real 2 6 < abp_slippage_real 9 7 := by
  constructor
  · exact sell_zero_and_slippage_mono.1 refOps sStation 0 (by norm_num) rfl rfl rfl
      (by norm_num [sStation])
  · apply sell_zero_and_slippage_mono.2.2 2 6 9 7 (by norm_num) (by norm_num)
      (by norm_num) (by norm_num)
    unfold abp_sale_ratio
    rw [show max (1 : ℝ) (6 + 2) = 8 by norm_num, show max (1 : ℝ) (7 + 9) = 16 by norm_num]
    norm_num

theorem list_sum_map_div (l : List ℚ) (k : ℚ) :
    (l.map (fun x => x / k)).sum = l.sum / k := by
  induction l with
  | nil => simp
  | cons x xs ih => simp only [List.map_cons, List.sum_cons, ih]; ring

theorem normalize_probs_simplex (l : List ℚ) (hne : l ≠ []) :
    is_prob_simplex (abp_normalize_probs l) := by
  have hpos : ∀ x ∈ l.map (fun v => if v < 1.0e-8 then (1.0e-8 : ℚ) else v), 0 < x := by
    intro x hx
    obtain ⟨v, _, rfl⟩ := List.mem_map.mp hx
    by_cases hv : v < 1.0e-8
    · rw [if_pos hv]; norm_num
    · rw [if_neg hv]
      push_neg at hv
      have h8 : (0 : ℚ) < 1.0e-8 := by norm_num
      linarith
  have hfne : l.map (fun v => if v < 1.0e-8 then (1.0e-8 : ℚ) else v) ≠ [] := by
    intro h; exact hne (by simpa using h)
  have hsum : 0 < (l.map (fun v => if v < 1.0e-8 then (1.0e-8 : ℚ) else v)).sum :=
    List.sum_pos _ hpos hfne
  simp only [abp_normalize_probs]
  rw [if_neg (not_le.mpr hsum)]
  refine ⟨?_, ?_⟩
  · intro x hx
    obtain ⟨v, hv, rfl⟩ := List.mem_map.mp hx
    exact le_of_lt (div_pos (hpos v hv) hsum)
  · rw [list_sum_map_div, div_self (ne_of_gt hsum)]

theorem pcg32_out_lt (r : AbpRng) : (abp_pcg32_next r).1 < 2 ^ 32 := by
  simp only [abp_pcg32_next]
  exact Nat.mod_lt _ (by norm_num)

theorem st_next_f32_range (s : AbpCoreState) :
    0 ≤ (st_next_f32 s).1 ∧ (st_next_f32 s).1 < 1 := by
  have hlt : (abp_pcg32_next s.rng).1 < 2 ^ 32 := pcg32_out_lt s.rng
  constructor
  · show 0 ≤ ((abp_pcg32_next s.rng).1 : ℚ) / 4294967296
    positivity
  · show ((abp_pcg32_next s.rng).1 : ℚ) / 4294967296 < 1
    rw [div_lt_one (by norm_num)]
    exact_mod_cast hlt

theorem exp_unit_pos (ops : FloatOps) (hops : OpsSane ops) (s : AbpCoreState) :
    0 < (abp_rng_exp_unit ops s).1 := by
  obtain ⟨h0, h1⟩ := st_next_f32_range s
  show 0 < -(ops.log (if (st_next_f32 s).1 < 1.0e-8 then (1.0e-8 : ℚ) else (st_next_f32 s).1))
  have hlog : ops.log (if (st_next_f32 s).1 < 1.0e-8 then (1.0e-8 : ℚ) else (st_next_f32 s).1) < 0 := by
    by_cases hv : (st_next_f32 s).1 < 1.0e-8
    · rw [if_pos hv]
      exact hops _ le_rfl (by norm_num)
    · rw [if_neg hv]
      push_neg at hv
      exact hops _ hv h1
  linarith

theorem draw_list_length (d : AbpCoreState → ℚ × AbpCoreState) (k : ℕ) :
    ∀ s, (draw_list d k s).1.length = k := by
  induction k with
  | zero => intro s; rfl
  | succ n ih =>
    intro s
    show ((d s).1 :: (draw_list d n (d s).2).1).length = n + 1
    simp [ih]

theorem draw_list_mem (d : AbpCoreState → ℚ × AbpCoreState) (P : ℚ → Prop)
    (hP : ∀ s, P (d s).1) (k : ℕ) :
    ∀ s, ∀ x ∈ (draw_list d k s).1, P x := by
  induction k with
  | zero =>
    intro s x hx
    simp only [draw_list] at hx
    exact absurd hx (List.not_mem_nil x)
  | succ n ih =>
    intro s x hx
    have hx' : x ∈ (d s).1 :: (draw_list d n (d s).2).1 := hx
    rcases List.mem_cons.mp hx' with rfl | hmem
    · exact hP s
    · exact ih (d s).2 x hmem

theorem dirichlet_ones_simplex (ops : FloatOps) (hops : OpsSane ops)
    (s : AbpCoreState) : is_prob_simplex (abp_rng_dirichlet_ones ops s).1 := by
  have hpos : ∀ x ∈ (draw_list (abp_rng_exp_unit ops) 6 s).1, 0 < x :=
    draw_list_mem _ _ (fun s1 => exp_unit_pos ops hops s1) 6 s
  have hlen : (draw_list (abp_rng_exp_unit ops) 6 s).1.length = 6 :=
    draw_list_length _ 6 s
  have hne : (draw_list (abp_rng_exp_unit ops) 6 s).1 ≠ [] := by
    intro h; rw [h] at hlen; exact absurd hlen (by norm_num)
  have hsum : 0 < (draw_list (abp_rng_exp_unit ops) 6 s).1.sum :=
    List.sum_pos _ hpos hne
  show is_prob_simplex
    (if (draw_list (abp_rng_exp_unit ops) 6 s).1.sum ≤ 0 then
        List.replicate 6 ((1 : ℚ) / 6)
      else (draw_list (abp_rng_exp_unit ops) 6 s).1.map
        (fun v => v / (draw_list (abp_rng_exp_unit ops) 6 s).1.sum))
  rw [if_neg (not_le.mpr hsum)]
  refine ⟨?_, ?_⟩
  · intro x hx
    obtain ⟨v, hv, rfl⟩ := List.mem_map.mp hx
    exact le_of_lt (div_pos (hpos v hv) hsum)
  · rw [list_sum_map_div, div_self (ne_of_gt hsum)]

theorem getD_replicate {α : Type} (n i : ℕ) (x d : α) :
    (List.replicate n x).getD i d = if i < n then x else d := by
  induction n generalizing i with
  | zero => simp
  | succ m ih =>
    cases i with
    | zero => simp
    | succ j =>
      show (List.replicate m x).getD j d = _
      rw [ih]
      simp only [Nat.succ_lt_succ_iff]

theorem get2_zero2b (n a : ℕ) : get2 zero2b n a false = false := by
  unfold get2 zero2b
  rw [getD_replicate]
  split_ifs with h
  · rw [getD_replicate]; split_ifs <;> rfl
  · rfl

theorem getD_mem_of_lt {α : Type} (l : List α) (i : ℕ) (d : α)
    (h : i < l.length) : l.getD i d ∈ l := by
  induction l generalizing i with
  | nil => simp at h
  | cons x xs ih =>
    cases i with
    | zero => exact List.mem_cons_self x xs
    | succ n =>
      simp only [List.length_cons, Nat.succ_lt_succ_iff] at h
      exact List.mem_cons_of_mem x (ih n h)

theorem set3row_eq_set2 (m : List (List (List ℚ))) (i j : ℕ) (v : List ℚ) :
    set3row m i j v = set2 m i j v := rfl

theorem rows_len_set2 {α : Type} (m : List (List α)) (i j : ℕ) (v : α)
    (h32 : m.length = 32) (h16 : ∀ r ∈ m, r.length = 16) :
    (set2 m i j v).length = 32 ∧ ∀ r ∈ set2 m i j v, r.length = 16 := by
  unfold set2
  refine ⟨by rw [List.length_set]; exact h32, ?_⟩
  intro r hr
  by_cases hi : i < m.length
  · rcases List.mem_or_eq_of_mem_set hr with hmem | rfl
    · exact h16 r hmem
    · rw [List.length_set]
      exact h16 _ (getD_mem_of_lt m i [] hi)
  · rw [set_of_length_le _ _ _ (by omega)] at hr
    exact h16 r hr

theorem get2_set2_ne {α : Type} (m : List (List α)) (i j n a : ℕ) (v d : α)
    (h : ¬(i = n ∧ j = a)) : get2 (set2 m i j v) n a d = get2 m n a d := by
  unfold get2 set2
  by_cases hin : i = n
  · subst hin
    have hja : j ≠ a := fun hja => h ⟨rfl, hja⟩
    by_cases hptr : i < m.length
    · rw [getD_set_self_of_lt _ _ _ _ hptr, getD_set_ne' _ _ _ _ _ hja]
    · rw [set_of_length_le _ _ _ (by omega)]
  · rw [getD_set_ne' _ _ _ _ _ hin]

theorem getD2_set2_self {α : Type} (m : List (List α)) (i j : ℕ) (v d : α)
    (hi : i < m.length) (hj : j < (m.getD i []).length) :
    ((set2 m i j v).getD i []).getD j d = v := by
  unfold set2
  rw [getD_set_self_of_lt _ _ _ _ hi, getD_set_self_of_lt _ _ _ _ hj]

theorem arrays_ok_set (av : List (List Bool)) (tc ce : List (List (List ℚ)))
    (h : arrays_ok av tc ce)
    (havl : av.length = 32) (hav16 : ∀ r ∈ av, r.length = 16)
    (htcl : tc.length = 32) (htc16 : ∀ r ∈ tc, r.length = 16)
    (hcel : ce.length = 32) (hce16 : ∀ r ∈ ce, r.length = 16)
    (node a_idx : ℕ) (dirT dirE : List ℚ)
    (hT : is_prob_simplex dirT) (hE : is_prob_simplex dirE) :
    arrays_ok (set2 av node a_idx true) (set3row tc node a_idx dirT)
      (set3row ce node a_idx dirE) := by
  intro n a hval
  rw [set3row_eq_set2, set3row_eq_set2]
  by_cases hna : n = node ∧ a = a_idx
  · obtain ⟨rfl, rfl⟩ := hna
    by_cases hn32 : n < 32
    · by_cases ha16 : a < 16
      · have htcj : a < (tc.getD n []).length := by
          rw [htc16 _ (getD_mem_of_lt tc n [] (by omega))]; exact ha16
        have hcej : a < (ce.getD n []).length := by
          rw [hce16 _ (getD_mem_of_lt ce n [] (by omega))]; exact ha16
        rw [getD2_set2_self _ _ _ _ _ (by omega) htcj,
            getD2_set2_self _ _ _ _ _ (by omega) hcej]
        exact ⟨hT, hE⟩
      · have hvold : get2 av n a false = true := by
          have hrow : (av.getD n []).length = 16 :=
            hav16 _ (getD_mem_of_lt av n [] (by omega))
          have : get2 (set2 av n a true) n a false = get2 av n a false := by
            unfold get2 set2
            rw [getD_set_self_of_lt _ _ _ _ (by omega),
                set_of_length_le _ _ _ (by omega)]
          rw [← this]; exact hval
        have htcrow : (tc.getD n []).length = 16 :=
          htc16 _ (getD_mem_of_lt tc n [] (by omega))
        have hcerow : (ce.getD n []).length = 16 :=
          hce16 _ (getD_mem_of_lt ce n [] (by omega))
        have etc : ((set2 tc n a dirT).getD n []).getD a [] = (tc.getD n []).getD a [] := by
          unfold set2
          rw [getD_set_self_of_lt _ _ _ _ (by omega),
              set_of_length_le _ _ _ (by omega)]
        have ece : ((set2 ce n a dirE).getD n []).getD a [] = (ce.getD n []).getD a [] := by
          unfold set2
          rw [getD_set_self_of_lt _ _ _ _ (by omega),
              set_of_length_le _ _ _ (by omega)]
        rw [etc, ece]
        exact h n a hvold
    · have hvold : get2 av n a false = true := by
        have : set2 av n a true = av := by
          unfold set2; exact set_of_length_le _ _ _ (by omega)
        rw [← hval, show get2 (set2 av n a true) n a false = get2 av n a false by rw [this]]
      have etc : set2 tc n a dirT = tc := by
        unfold set2; exact set_of_length_le _ _ _ (by omega)
      have ece : set2 ce n a dirE = ce := by
        unfold set2; exact set_of_length_le _ _ _ (by omega)
      rw [etc, ece]
      exact h n a hvold
  · have hvold : get2 av n a false = true := by
      rw [← hval, get2_set2_ne _ _ _ _ _ _ _ (fun hc => hna ⟨hc.1.symm, hc.2.symm⟩)]
    have etc : ((set2 tc node a_idx dirT).getD n []).getD a [] =
        (tc.getD n []).getD a [] :=
      get2_set2_ne tc node a_idx n a dirT [] (fun hc => hna ⟨hc.1.symm, hc.2.symm⟩)
    have ece : ((set2 ce node a_idx dirE).getD n []).getD a [] =
        (ce.getD n []).getD a [] :=
      get2_set2_ne ce node a_idx n a dirE [] (fun hc => hna ⟨hc.1.symm, hc.2.symm⟩)
    rw [etc, ece]
    exact h n a hvold

theorem gen_one_preserves (ops : FloatOps) (hops : OpsSane ops) (node a_idx : ℕ)
    (st : AbpCoreState) (h : asteroid_simplices_ok st ∧ asteroid_dims_ok st) :
    asteroid_simplices_ok (abp_generate_one_asteroid ops node a_idx st) ∧
    asteroid_dims_ok (abp_generate_one_asteroid ops node a_idx st) := by
  obtain ⟨hok, hdims⟩ := h
  obtain ⟨hd1, hd2, hd3, hd4, hd5, hd6⟩ := hdims
  constructor
  · exact arrays_ok_set st.ast_valid st.true_comp st.comp_est hok hd1 hd2 hd3 hd4
      hd5 hd6 node a_idx _ _ (dirichlet_ones_simplex ops hops _)
      (dirichlet_ones_simplex ops hops _)
  · refine ⟨?_, ?_, ?_, ?_, ?_, ?_⟩
    · exact (rows_len_set2 st.ast_valid node a_idx true hd1 hd2).1
    · exact (rows_len_set2 st.ast_valid node a_idx true hd1 hd2).2
    · exact (rows_len_set2 st.true_comp node a_idx _ hd3 hd4).1
    · exact (rows_len_set2 st.true_comp node a_idx _ hd3 hd4).2
    · exact (rows_len_set2 st.comp_est node a_idx _ hd5 hd6).1
    · exact (rows_len_set2 st.comp_est node a_idx _ hd5 hd6).2

theorem zero2b_rows : ∀ r ∈ zero2b, r.length = 16 := by
  intro r hr
  rw [List.eq_of_mem_replicate hr]
  simp

theorem zero3q_rows : ∀ r ∈ zero3q, r.length = 16 := by
  intro r hr
  rw [List.eq_of_mem_replicate hr]
  simp

theorem arrays_ok_zero : arrays_ok zero2b zero3q zero3q := by
  intro n a hval
  rw [get2_zero2b] at hval
  exact absurd hval (by simp)

theorem generate_asteroids_ok (ops : FloatOps) (hops : OpsSane ops)
    (s : AbpCoreState) :
    asteroid_simplices_ok (abp_generate_asteroids ops s) ∧
    asteroid_dims_ok (abp_generate_asteroids ops s) := by
  refine @iterUp_inv AbpCoreState
    (fun x => asteroid_simplices_ok x ∧ asteroid_dims_ok x) _ ?_ 0 _ _
    ⟨arrays_ok_zero, by simp [zero2b], zero2b_rows, by simp [zero3q], zero3q_rows,
      by simp [zero3q], zero3q_rows⟩
  intro node st hst
  dsimp only
  split
  · exact hst
  · exact @iterUp_inv AbpCoreState
      (fun x => asteroid_simplices_ok x ∧ asteroid_dims_ok x) _
      (fun i x hx => gen_one_preserves ops hops node i x hx) 0 _ _ hst

theorem market_frames (ops : FloatOps) (st : AbpCoreState) :
    (abp_generate_market ops st).ast_valid = st.ast_valid ∧
    (abp_generate_market ops st).true_comp = st.true_comp ∧
    (abp_generate_market ops st).comp_est = st.comp_est := by
  refine @iterUp_inv AbpCoreState
    (fun x => x.ast_valid = st.ast_valid ∧ x.true_comp = st.true_comp ∧
      x.comp_est = st.comp_est) _ ?_ 0 6 _ ⟨rfl, rfl, rfl⟩
  intro c x hx
  exact hx

theorem market_preserves_simplices (ops : FloatOps) (st : AbpCoreState)
    (h : asteroid_simplices_ok st) :
    asteroid_simplices_ok (abp_generate_market ops st) := by
  obtain ⟨e1, e2, e3⟩ := market_frames ops st
  unfold asteroid_simplices_ok
  rw [e1, e2, e3]
  exact h

theorem generate_world_simplices (ops : FloatOps) (hops : OpsSane ops)
    (s : AbpCoreState) : asteroid_simplices_ok (abp_generate_world ops s) :=
  market_preserves_simplices ops _ ((generate_asteroids_ok ops hops _).1)

theorem init_simplices (ops : FloatOps) (hops : OpsSane ops)
    (cfg : AbpCoreConfig) (seed : ℕ) :
    asteroid_simplices_ok (abp_core_init ops cfg seed) :=
  generate_world_simplices ops hops _

theorem update_estimates_true_comp (ops : FloatOps) (s : AbpCoreState)
    (ast mode : ℕ) :
    (abp_update_asteroid_estimates ops s ast mode).true_comp = s.true_comp := by
  simp only [abp_update_asteroid_estimates]
  split
  · rfl
  · rfl

theorem update_estimates_simplex (ops : FloatOps) (s : AbpCoreState)
    (ast mode : ℕ)
    (hval : get2 s.ast_valid s.current_node ast false = true)
    (hn : s.current_node < s.comp_est.length)
    (ha : ast < (s.comp_est.getD s.current_node []).length) :
    is_prob_simplex
      (((abp_update_asteroid_estimates ops s ast mode).comp_est.getD
        s.current_node []).getD ast []) := by
  have key : ∀ M : List ℚ, M ≠ [] →
      is_prob_simplex (((set3row s.comp_est s.current_node ast
        (abp_normalize_probs M)).getD s.current_node []).getD ast []) := by
    intro M hM
    rw [set3row_eq_set2]
    unfold set2
    rw [getD_set_self_of_lt _ _ _ _ hn, getD_set_self_of_lt _ _ _ _ ha]
    exact normalize_probs_simplex M hM
  simp only [abp_update_asteroid_estimates]
  have hcond : ¬(get2 s.ast_valid s.current_node ast false = false) := by
    simp [hval]
  rw [if_neg hcond]
  refine key _ ?_
  simp

theorem hold_tc (s : AbpCoreState) : (abp_apply_hold s).true_comp = s.true_comp := rfl

theorem burn_tc (s : AbpCoreState) :
    (abp_apply_emergency_burn s).true_comp = s.true_comp := by
  simp only [abp_apply_emergency_burn]
  split <;> rfl

theorem pirate_tc (ops : FloatOps) (s : AbpCoreState) (dt : ℕ) (intensity : ℚ) :
    (abp_maybe_pirate_encounter ops s dt intensity).true_comp = s.true_comp := by
  simp only [abp_maybe_pirate_encounter]
  split_ifs <;> rfl

theorem hazards_tc (s : AbpCoreState) (dt : ℕ) :
    (abp_apply_node_hazards s dt).true_comp = s.true_comp := by
  simp only [abp_apply_node_hazards]
  split <;> rfl

theorem edge_tc (ops : FloatOps) (s : AbpCoreState) (dt : ℕ) (threat : ℚ) :
    (abp_apply_edge_hazards_and_pirates ops s dt threat).true_comp = s.true_comp := by
  simp only [abp_apply_edge_hazards_and_pirates]
  split
  · rfl
  · rw [pirate_tc]
    rfl

theorem travel_tc (ops : FloatOps) (s : AbpCoreState) (slot : ℕ) :
    (abp_apply_travel ops s slot).1.true_comp = s.true_comp := by
  simp only [abp_apply_travel]
  split
  · rfl
  · rw [edge_tc]

theorem cluster_tc (ops : FloatOps) (s : AbpCoreState) :
    (abp_update_cluster_priors_with_noise ops s).true_comp = s.true_comp := by
  refine @iterUp_inv AbpCoreState (fun x => x.true_comp = s.true_comp) _ ?_ 0 16 s rfl
  intro i x hx
  dsimp only
  split
  · rw [update_estimates_true_comp]; exact hx
  · exact hx

theorem neighbor_tc (ops : FloatOps) (s : AbpCoreState) :
    (abp_update_neighbor_threat_estimates ops s).true_comp = s.true_comp := by
  refine @iterUp_inv AbpCoreState (fun x => x.true_comp = s.true_comp) _ ?_ 0 6 s rfl
  intro i x hx
  dsimp only
  split
  · exact hx
  · exact hx

theorem select_tc (s : AbpCoreState) (ast : Int) :
    (abp_select_asteroid s ast).2.true_comp = s.true_comp := by
  simp only [abp_select_asteroid]
  split_ifs <;> rfl

theorem ite_tc (c : Prop) [Decidable c] (x y : AbpCoreState)
    (v : List (List (List ℚ))) (hx : x.true_comp = v) (hy : y.true_comp = v) :
    (if c then x else y).true_comp = v := by
  split
  · exact hx
  · exact hy

set_option maxHeartbeats 4000000 in
theorem mine_tc (ops : FloatOps) (s : AbpCoreState) (action : ℕ) :
    (abp_mine_selected ops s action).true_comp = s.true_comp := by
  simp only [abp_mine_selected]
  exact ite_tc _ _ _ _ rfl rfl

theorem refine_tc (s : AbpCoreState) :
    (abp_refine_some_cargo s).true_comp = s.true_comp := by
  simp only [abp_refine_some_cargo]
  split_ifs <;> rfl

theorem sell_tc (ops : FloatOps) (s : AbpCoreState) (action : ℕ) :
    (abp_sell_action ops s action).true_comp = s.true_comp := by
  simp only [abp_sell_action]
  split_ifs <;> rfl

theorem buy_fuel_tc (s : AbpCoreState) (qty cost : ℚ) :
    (abp_buy_fuel s qty cost).2.true_comp = s.true_comp := by
  simp only [abp_buy_fuel]
  split <;> rfl

theorem buy_supply_tc (s : AbpCoreState) (kind : ℕ) :
    (abp_buy_supply s kind).2.true_comp = s.true_comp := by
  simp only [abp_buy_supply]
  split_ifs <;> rfl

theorem purchase_tc (s : AbpCoreState) (a : ℕ) :
    (abp_purchase_station_item s a).2.true_comp = s.true_comp := by
  simp only [abp_purchase_station_item]
  split_ifs <;> first | rfl | rw [buy_fuel_tc] | rw [buy_supply_tc]

theorem market_tc (ops : FloatOps) (s : AbpCoreState) (dt : ℕ) :
    (abp_update_market ops s dt).true_comp = s.true_comp := by
  simp only [abp_update_market]
  refine @iterUp_inv AbpCoreState (fun x => x.true_comp = s.true_comp) _ ?_ 0 6 _ ?_
  · intro c x hx
    exact hx
  · refine @iterUp_inv AbpCoreState (fun x => x.true_comp = s.true_comp) _ ?_ 0 6 _ rfl
    intro c x hx
    exact hx

theorem clamp_tc (s : AbpCoreState) : (abp_clamp_state s).true_comp = s.true_comp := rfl

theorem track_tc (s : AbpCoreState) (dt : ℕ) :
    (abp_track_cargo_utilization s dt).true_comp = s.true_comp := rfl

theorem dyn_tc (ops : FloatOps) (s : AbpCoreState) (dt : ℕ) :
    (abp_apply_global_dynamics ops s dt).true_comp = s.true_comp := by
  simp only [abp_apply_global_dynamics]
  rw [track_tc, clamp_tc, market_tc]
  split_ifs <;> first | rfl | (rw [pirate_tc, hazards_tc]; rfl)

attribute [irreducible] abp_apply_travel abp_apply_hold abp_apply_emergency_burn
  abp_update_cluster_priors_with_noise abp_update_asteroid_estimates
  abp_update_neighbor_threat_estimates abp_select_asteroid abp_mine_selected
  abp_refine_some_cargo abp_sell_action abp_purchase_station_item

theorem ite_out_tc (c : Prop) [Decidable c] (x y : AbpDispatchOut)
    (v : List (List (List ℚ))) (hx : x.st.true_comp = v)
    (hy : y.st.true_comp = v) : (if c then x else y).st.true_comp = v := by
  split
  · exact hx
  · exact hy

set_option maxHeartbeats 40000000 in
theorem dispatch_tc (ops : FloatOps) (s : AbpCoreState) (a : ℕ) :
    (abp_dispatch ops s a).st.true_comp = s.true_comp := by
  rcases Nat.lt_or_ge a 69 with h | h
  · interval_cases a
    · exact travel_tc ops s 0
    · exact travel_tc ops s 1
    · exact travel_tc ops s 2
    · exact travel_tc ops s 3
    · exact travel_tc ops s 4
    · exact travel_tc ops s 5
    · exact hold_tc s
    · exact burn_tc s
    · exact cluster_tc ops { s with fuel := s.fuel - 5, alert := s.alert + 4 }
    · exact ite_out_tc (abp_selected_asteroid_valid { s with fuel := s.fuel - 4, alert := s.alert + 3 } = false) _ _ _ rfl (update_estimates_true_comp ops _ _ 1)
    · exact ite_out_tc (abp_selected_asteroid_valid { s with fuel := s.fuel - 8, alert := s.alert + 6 } = false) _ _ _ rfl (update_estimates_true_comp ops _ _ 2)
    · exact neighbor_tc ops s
    · exact select_tc s _
    · exact select_tc s _
    · exact select_tc s _
    · exact select_tc s _
    · exact select_tc s _
    · exact select_tc s _
    · exact select_tc s _
    · exact select_tc s _
    · exact select_tc s _
    · exact select_tc s _
    · exact select_tc s _
    · exact select_tc s _
    · exact select_tc s _
    · exact select_tc s _
    · exact select_tc s _
    · exact select_tc s _
    · exact ite_out_tc (abp_selected_asteroid_valid s = false) _ _ _ rfl (mine_tc ops s 28)
    · exact ite_out_tc (abp_selected_asteroid_valid s = false) _ _ _ rfl (mine_tc ops s 29)
    · exact ite_out_tc (abp_selected_asteroid_valid s = false) _ _ _ rfl (mine_tc ops s 30)
    · exact ite_out_tc (abp_selected_asteroid_valid s = false ∨ s.stabilizers = 0) _ _ _ rfl rfl
    · exact refine_tc { s with fuel := s.fuel - 4, heat := s.heat + 6, alert := s.alert + 3 }
    · rfl
    · exact ite_out_tc (s.repair_kits = 0) _ _ _ rfl rfl
    · exact ite_out_tc (s.repair_kits = 0) _ _ _ rfl rfl
    · rfl
    · rfl
    · rfl
    · rfl
    · rfl
    · rfl
    · exact ite_out_tc (abp_is_at_station s = false) _ _ _ rfl rfl
    · exact ite_out_tc (abp_is_at_station s = false) _ _ _ rfl (sell_tc ops s 43)
    · exact ite_out_tc (abp_is_at_station s = false) _ _ _ rfl (sell_tc ops s 44)
    · exact ite_out_tc (abp_is_at_station s = false) _ _ _ rfl (sell_tc ops s 45)
    · exact ite_out_tc (abp_is_at_station s = false) _ _ _ rfl (sell_tc ops s 46)
    · exact ite_out_tc (abp_is_at_station s = false) _ _ _ rfl (sell_tc ops s 47)
    · exact ite_out_tc (abp_is_at_station s = false) _ _ _ rfl (sell_tc ops s 48)
    · exact ite_out_tc (abp_is_at_station s = false) _ _ _ rfl (sell_tc ops s 49)
    · exact ite_out_tc (abp_is_at_station s = false) _ _ _ rfl (sell_tc ops s 50)
    · exact ite_out_tc (abp_is_at_station s = false) _ _ _ rfl (sell_tc ops s 51)
    · exact ite_out_tc (abp_is_at_station s = false) _ _ _ rfl (sell_tc ops s 52)
    · exact ite_out_tc (abp_is_at_station s = false) _ _ _ rfl (sell_tc ops s 53)
    · exact ite_out_tc (abp_is_at_station s = false) _ _ _ rfl (sell_tc ops s 54)
    · exact ite_out_tc (abp_is_at_station s = false) _ _ _ rfl (sell_tc ops s 55)
    · exact ite_out_tc (abp_is_at_station s = false) _ _ _ rfl (sell_tc ops s 56)
    · exact ite_out_tc (abp_is_at_station s = false) _ _ _ rfl (sell_tc ops s 57)
    · exact ite_out_tc (abp_is_at_station s = false) _ _ _ rfl (sell_tc ops s 58)
    · exact ite_out_tc (abp_is_at_station s = false) _ _ _ rfl (sell_tc ops s 59)
    · exact ite_out_tc (abp_is_at_station s = false) _ _ _ rfl (sell_tc ops s 60)
    · exact ite_out_tc (abp_is_at_station s = false) _ _ _ rfl (purchase_tc s 61)
    · exact ite_out_tc (abp_is_at_station s = false) _ _ _ rfl (purchase_tc s 62)
    · exact ite_out_tc (abp_is_at_station s = false) _ _ _ rfl (purchase_tc s 63)
    · exact ite_out_tc (abp_is_at_station s = false) _ _ _ rfl (purchase_tc s 64)
    · exact ite_out_tc (abp_is_at_station s = false) _ _ _ rfl (purchase_tc s 65)
    · exact ite_out_tc (abp_is_at_station s = false) _ _ _ rfl (purchase_tc s 66)
    · exact ite_out_tc (abp_is_at_station s = false ∨ s.credits < 280) _ _ _ rfl rfl
    · rfl
  · unfold abp_dispatch
    rw [if_neg (show ¬a ≤ 5 by omega),
        if_neg (show ¬a = 6 by omega),
        if_neg (show ¬a = 7 by omega),
        if_neg (show ¬a = 8 by omega),
        if_neg (show ¬a = 9 by omega),
        if_neg (show ¬a = 10 by omega),
        if_neg (show ¬a = 11 by omega),
        if_neg (show ¬a ≤ 27 by omega),
        if_neg (show ¬a ≤ 30 by omega),
        if_neg (show ¬a = 31 by omega),
        if_neg (show ¬a = 32 by omega),
        if_neg (show ¬a = 33 by omega),
        if_neg (show ¬a = 34 by omega),
        if_neg (show ¬a = 35 by omega),
        if_neg (show ¬a ≤ 41 by omega),
        if_neg (show ¬a = 42 by omega),
        if_neg (show ¬a ≤ 60 by omega),
        if_neg (show ¬a ≤ 66 by omega),
        if_neg (show ¬a = 67 by omega),
        if_neg (show ¬a = 68 by omega)]

theorem finish_tc (ops : FloatOps) (s2 : AbpCoreState) (a dt : ℕ)
    (inv t0 : Bool) (snap : AbpStepSnapshot) :
    (abp_finish_step ops s2 a dt inv t0 snap).state.true_comp = s2.true_comp := by
  show (abp_apply_global_dynamics ops s2 dt).true_comp = s2.true_comp
  exact dyn_tc ops s2 dt

theorem step_tc (ops : FloatOps) (s : AbpCoreState) (a : ℕ) :
    (abp_core_step ops s a).state.true_comp = s.true_comp := by
  simp only [abp_core_step]
  split
  · rfl
  · split <;> split <;>
      first
      | rw [finish_tc, hold_tc, dispatch_tc]
      | rw [finish_tc, dispatch_tc]

/-- C8: simplex invariant.  Under the analytic sign fact for the math
library's log (OpsSane), (1) world generation (create/reset) leaves every
valid asteroid slot with a true composition and a composition estimate
that are probability simplices (nonnegative entries, sum exactly 1 in the
rational model); (2) every scan-type estimate update writes a probability
simplex into the composition estimate of the scanned slot; and (3) the
true composition array is never modified after generation: estimate
updates and whole engine steps leave it unchanged. -/
theorem simplex_invariant (ops : FloatOps) (hops : OpsSane ops) :
    (∀ (cfg : AbpCoreConfig) (seed : ℕ),
      asteroid_simplices_ok (abp_core_init ops cfg seed)) ∧
    (∀ (s : AbpCoreState) (ast mode : ℕ),
      get2 s.ast_valid s.current_node ast false = true →
      s.current_node < s.comp_est.length →
      ast < (s.comp_est.getD s.current_node []).length →
      is_prob_simplex
        (((abp_update_asteroid_estimates ops s ast mode).comp_est.getD
          s.current_node []).getD ast [])) ∧
    (∀ (s : AbpCoreState) (ast mode : ℕ),
      (abp_update_asteroid_estimates ops s ast mode).true_comp = s.true_comp) ∧
    (∀ (s : AbpCoreState) (a : ℕ),
      (abp_core_step ops s a).state.true_comp = s.true_comp) :=
  ⟨fun cfg seed => init_simplices ops hops cfg seed,
   fun s ast mode hval hn ha => update_estimates_simplex ops s ast mode hval hn ha,
   fun s ast mode => update_estimates_true_comp ops s ast mode,
   fun s a => step_tc ops s a⟩

/-- Witness for C8: the sanity hypothesis holds for the reference
surrogates, and the theorem applies at a concrete config, seed, state and
action. -/
theorem simplex_invariant_witness :
    OpsSane refOps ∧
    asteroid_simplices_ok (abp_core_init refOps abp_core_default_config 3) ∧
    (abp_core_step refOps sStation 6).state.true_comp = sStation.true_comp := by
  have hsane : OpsSane refOps := by
    intro u h1 h2
    show u - 1 < 0
    linarith
  exact ⟨hsane, (simplex_invariant refOps hsane).1 abp_core_default_config 3,
    (simplex_invariant refOps hsane).2.2.2 sStation 6⟩
